import Mathlib

/-!
Real-time device-data client of the ESP monitor.

Two WebSocket clients live in the repository:

* `esp-monitor/src/services/websocket.js`, embedded in namespace `EspMonitor`;
* `test/connetsocket.js`, embedded in namespace `ConnetSocket`.

Both are single-threaded and callback driven.  A method or an event handler runs
to completion, so each one is a function from the runtime before it to the
runtime after it.  The browser objects the code talks to (sockets, timers,
promises) live in the runtime and are referred to by index, as JavaScript
refers to them by reference.
-/

namespace JS

/-- Value produced by `JSON.parse`.  Numbers matter to the clients only through
being zero or not; `fields` lists the own properties of a parsed object. -/
inductive Json where
  | null
  | bool (b : Bool)
  | num (n : Int)
  | str (s : String)
  | arr (items : List Json)
  | obj (fields : List (String × Json))

/-- Property read `value.key`: `none` is JavaScript `undefined`.  Only used on
values that are not `null` (reading a property of `null` throws). -/
def Json.get : Json → String → Option Json
  | .obj fields, key => (fields.find? (fun kv => kv.1 == key)).map (fun kv => kv.2)
  | _, _ => none

/-- JavaScript truthiness of a possibly `undefined` JSON value. -/
def Json.truthy : Option Json → Bool
  | none => false
  | some .null => false
  | some (.bool b) => b
  | some (.num n) => n != 0
  | some (.str s) => s != ""
  | some (.arr _) => true
  | some (.obj _) => true

/-- The four values of `WebSocket.readyState`. -/
inductive ReadyState where
  | CONNECTING
  | OPEN
  | CLOSING
  | CLOSED
  deriving DecidableEq, Repr

/-- Exceptions the embedded code can meet. -/
inductive JSError where
  | SyntaxError
  | InvalidAccessError
  | InvalidStateError
  | TypeError
  | Error (message : String)
  | thrownByListener (callback : Nat)
  deriving DecidableEq, Repr

/-- A browser `WebSocket` object as far as the clients observe it: the URL it was
built with, its ready state, the frames handed to `send` and the arguments of
the calls to `close`. -/
structure WebSocket where
  url : String
  readyState : ReadyState
  sent : List Json
  closes : List (Option Nat × Option String)

/-- Socket just built by `new WebSocket(url)`. -/
def WebSocket.create (url : String) : WebSocket :=
  { url := url, readyState := .CONNECTING, sent := [], closes := [] }

/-- Platform method `close(code, reason)`: throws `InvalidAccessError` unless the
code is absent, 1000 or in 3000..4999, and `SyntaxError` when the reason is
longer than 123 bytes; otherwise starts the closing handshake. -/
def WebSocket.close (ws : WebSocket) (code : Option Nat) (reason : Option String) :
    Except JSError WebSocket :=
  let codeOk := match code with
    | none => true
    | some c => c == 1000 || (3000 ≤ c && c ≤ 4999)
  let reasonOk := match reason with
    | none => true
    | some r => r.utf8ByteSize ≤ 123
  if !codeOk then .error .InvalidAccessError
  else if !reasonOk then .error .SyntaxError
  else
    .ok { ws with
      readyState := match ws.readyState with
        | .CONNECTING => .CLOSING
        | .OPEN => .CLOSING
        | st => st
      closes := ws.closes ++ [(code, reason)] }

/-- Platform method `send(data)`: throws `InvalidStateError` while the socket is
still connecting, otherwise queues the frame. -/
def WebSocket.send (ws : WebSocket) (data : Json) : Except JSError WebSocket :=
  match ws.readyState with
  | .CONNECTING => .error .InvalidStateError
  | _ => .ok { ws with sent := ws.sent ++ [data] }

/-- A promise created by `new Promise`. -/
inductive PromiseState where
  | pending
  | fulfilled (socket : Option Nat)
  | rejected (reason : JSError)
  deriving DecidableEq, Repr

/-- The parts of the platform the clients call without defining them. -/
structure Env where
  /-- Whether `new WebSocket(url)` throws for this URL. -/
  wsThrows : String → Bool
  /-- Built-in `JSON.parse`: `none` when it throws. -/
  parse : String → Option Json
  /-- Whether listener `callback` throws when called with `data`. -/
  listenerThrows : Nat → Option Json → Bool

/-- The frame built by `JSON.stringify` from `type: SUBSCRIBE, device_id`. -/
def subscribeFrame (deviceId : String) : Json :=
  .obj [("type", .str "SUBSCRIBE"), ("device_id", .str deviceId)]

/-- The property `message.type` when it is a string. -/
def messageType (message : Json) : Option String :=
  match message.get "type" with
  | some (.str s) => some s
  | _ => none

/-- A platform whose `WebSocket` constructor accepts every URL, whose
`JSON.parse` rejects every text and whose listeners never throw. -/
def sampleEnv : Env :=
  { wsThrows := fun _ => false, parse := fun _ => none, listenerThrows := fun _ _ => false }

end JS

/-! Embedding of `test/connetsocket.js`. -/

namespace ConnetSocket
open JS

/-- Instance fields of the class `WebSocketService` of `test/connetsocket.js`. -/
structure WebSocketService where
  socket : Option Nat
  reconnectAttempts : Nat
  maxReconnectAttempts : Nat
  isConnecting : Bool
  onDataCallbacks : List Nat
  token : Option String
  reconnectTimeout : Option Nat
  lastMessageTimestamp : Int
  messageThreshold : Int

/-- The constructor (lines 2-12). -/
def WebSocketService.constructor : WebSocketService :=
  { socket := none
    reconnectAttempts := 0
    maxReconnectAttempts := 5
    isConnecting := false
    onDataCallbacks := []
    token := none
    reconnectTimeout := none
    lastMessageTimestamp := 0
    messageThreshold := 100 }

/-- A pending `setTimeout`.  The only callback this file schedules is the
reconnection closure of lines 90-95. -/
structure Timer where
  id : Nat
  delay : Nat
  deriving DecidableEq, Repr

/-- A callback queued with `requestAnimationFrame` by `handleMessage`. -/
inductive AnimationFrame where
  /-- Lines 111-113 and 119-123: call every data callback with the payload. -/
  | forEachCallback (payload : Option Json)
  /-- Lines 134-136: `updateInitialState(message.data)`. -/
  | updateInitialState (state : Option Json)

/-- One client object together with the browser objects it uses. -/
structure Runtime where
  self : WebSocketService
  sockets : List WebSocket
  timers : List Timer
  nextTimer : Nat
  animationFrames : List AnimationFrame
  /-- Calls made to the registered data callbacks, oldest first. -/
  calls : List (Nat × Option Json)

/-- Runtime right after `new WebSocketService()`; timer handles start at 1. -/
def Runtime.initial : Runtime :=
  { self := WebSocketService.constructor
    sockets := []
    timers := []
    nextTimer := 1
    animationFrames := []
    calls := [] }

/-- A `close` event of the socket. -/
structure CloseEvent where
  code : Nat
  reason : String
  wasClean : Bool

/-- A `message` event of the socket. -/
structure MessageEvent where
  data : String

/-- The test `this.socket?.readyState === WebSocket.OPEN`. -/
def Runtime.isOpen (rt : Runtime) : Bool :=
  match rt.self.socket with
  | none => false
  | some sk =>
    match rt.sockets[sk]? with
    | none => false
    | some ws => ws.readyState == .OPEN

/-- Platform `setTimeout(callback, delay)`: returns the runtime with the timer
pending and its handle. -/
def Runtime.setTimeout (rt : Runtime) (delay : Nat) : Runtime × Nat :=
  ({ rt with
      timers := rt.timers ++ [{ id := rt.nextTimer, delay := delay }]
      nextTimer := rt.nextTimer + 1 },
   rt.nextTimer)

/-- Platform `clearTimeout(handle)`. -/
def Runtime.clearTimeout (rt : Runtime) (handle : Nat) : Runtime :=
  { rt with timers := rt.timers.filter (fun t => t.id != handle) }

/-- Truthiness of a timer handle field (`null` and `0` are falsy). -/
def handleTruthy : Option Nat → Bool
  | none => false
  | some h => h != 0

/-- Text of `token` inside a template literal. -/
def tokenText : Option String → String
  | none => "null"
  | some t => t

/-- Method `connect(token)` (lines 14-59).  The handlers it installs are
`onopen`, `onmessage`, `onclose` and `onerror` below. -/
def connect (env : Env) (rt : Runtime) (token : Option String) : Runtime :=
  if rt.self.isConnecting || rt.isOpen then rt
  else
    let rt1 := { rt with self := { rt.self with isConnecting := true, token := token } }
    let wsUrl := "ws://192.168.1.62:8000/ws/frontend?token=Bearer " ++ tokenText token
    if env.wsThrows wsUrl then
      { rt1 with self := { rt1.self with isConnecting := false } }
    else
      { rt1 with
        sockets := rt1.sockets ++ [WebSocket.create wsUrl]
        self := { rt1.self with socket := some rt1.sockets.length } }

/-- Handler `socket.onopen` (lines 27-35). -/
def onopen (rt : Runtime) : Runtime :=
  let rt1 := { rt with self := { rt.self with isConnecting := false, reconnectAttempts := 0 } }
  if handleTruthy rt1.self.reconnectTimeout then
    let rt2 := rt1.clearTimeout (rt1.self.reconnectTimeout.getD 0)
    { rt2 with self := { rt2.self with reconnectTimeout := none } }
  else rt1

/-- Method `throttleMessages(callback)` (lines 62-70): the returned handler,
given the event and the value of `Date.now()`. -/
def throttleMessages (callback : MessageEvent → Runtime → Runtime) :
    MessageEvent → Int → Runtime → Runtime :=
  fun event now rt =>
    if now - rt.self.lastMessageTimestamp > rt.self.messageThreshold then
      callback event { rt with self := { rt.self with lastMessageTimestamp := now } }
    else rt

/-- The delay expression of line 87:
`Math.min(1000 * Math.pow(2, this.reconnectAttempts), 30000)`. -/
def retryDelay (reconnectAttempts : Nat) : Nat :=
  min (1000 * 2 ^ reconnectAttempts) 30000

/-- Method `handleClose(event)` (lines 72-99). -/
def handleClose (rt : Runtime) (event : CloseEvent) : Runtime :=
  let rt1 := { rt with self := { rt.self with isConnecting := false } }
  if event.code = 4001 then rt1
  else if event.code = 1000 then rt1
  else if rt1.self.reconnectAttempts < rt1.self.maxReconnectAttempts then
    let delay := retryDelay rt1.self.reconnectAttempts
    let armed := rt1.setTimeout delay
    let rt2 := armed.1
    { rt2 with self := { rt2.self with reconnectTimeout := some armed.2 } }
  else rt1

/-- Handler `socket.onclose` (lines 46-48). -/
def onclose (rt : Runtime) (event : CloseEvent) : Runtime :=
  handleClose rt event

/-- Handler `socket.onerror` (lines 50-53). -/
def onerror (rt : Runtime) : Runtime :=
  { rt with self := { rt.self with isConnecting := false } }

/-- The timer callback of lines 90-95, run when timer `handle` fires. -/
def reconnectCallback (env : Env) (rt : Runtime) (handle : Nat) : Runtime :=
  let rt1 := rt.clearTimeout handle
  if !rt1.self.isConnecting then
    connect env
      { rt1 with self := { rt1.self with reconnectAttempts := rt1.self.reconnectAttempts + 1 } }
      rt1.self.token
  else rt1

/-- Platform `requestAnimationFrame(callback)`. -/
def Runtime.requestAnimationFrame (rt : Runtime) (frame : AnimationFrame) : Runtime :=
  { rt with animationFrames := rt.animationFrames ++ [frame] }

/-- Method `handleMessage(message)` (lines 101-146).  Reading `message.type` of
`null` throws inside the `try` and is caught there. -/
def handleMessage (rt : Runtime) (message : Json) : Runtime :=
  match message with
  | .null => rt
  | _ =>
    if messageType message = some "ESP_DATA" then
      rt.requestAnimationFrame (.forEachCallback (message.get "data"))
    else if messageType message = some "SUBSCRIPTION_SUCCESS" then
      if Json.truthy (message.get "current_state") then
        rt.requestAnimationFrame (.forEachCallback (message.get "current_state"))
      else rt
    else if messageType message = some "ERROR" then rt
    else if messageType message = some "INITIAL_STATE" then
      if Json.truthy (message.get "data") then
        rt.requestAnimationFrame (.updateInitialState (message.get "data"))
      else rt
    else rt

/-- The callback that `connect` wraps with `throttleMessages` (lines 37-44). -/
def messageCallback (env : Env) : MessageEvent → Runtime → Runtime :=
  fun event rt =>
    match env.parse event.data with
    | none => rt
    | some data => handleMessage rt data

/-- Handler `socket.onmessage` (line 37), given the value of `Date.now()`. -/
def onmessage (env : Env) : MessageEvent → Int → Runtime → Runtime :=
  throttleMessages (messageCallback env)

/-- The browser reports socket `sk` closed and dispatches its `close` event. -/
def socketClosed (rt : Runtime) (sk : Nat) (event : CloseEvent) : Runtime :=
  let sockets := match rt.sockets[sk]? with
    | none => rt.sockets
    | some ws => rt.sockets.set sk { ws with readyState := .CLOSED }
  onclose { rt with sockets := sockets } event

/-- The browser reports socket `sk` open and dispatches its `open` event. -/
def socketOpened (rt : Runtime) (sk : Nat) : Runtime :=
  let sockets := match rt.sockets[sk]? with
    | none => rt.sockets
    | some ws => rt.sockets.set sk { ws with readyState := .OPEN }
  onopen { rt with sockets := sockets }

/-- An abnormal closure (code 1006, not clean), as the browser reports a lost
connection. -/
def abnormalClose : CloseEvent :=
  { code := 1006, reason := "", wasClean := false }

/-- One failed attempt: the current socket closes abnormally and the retry timer
that `handleClose` scheduled fires. -/
def failedAttempt (env : Env) (rt : Runtime) : Runtime :=
  let closed := socketClosed rt (rt.self.socket.getD 0) abnormalClose
  reconnectCallback env closed (closed.self.reconnectTimeout.getD 0)

/-- The client after `connect("abc")` and five failed attempts in a row. -/
def exhaustedRuntime : Runtime :=
  (failedAttempt sampleEnv)^[5] (connect sampleEnv Runtime.initial (some "abc"))

/-- A platform like `sampleEnv` whose `JSON.parse` yields one `ESP_DATA` frame
for every text. -/
def telemetryEnv : Env :=
  { sampleEnv with
    parse := fun _ => some (.obj [("type", .str "ESP_DATA"), ("data", .obj [("temperature", .num 21)])]) }

/-- The `forEach` over `onDataCallbacks` of lines 112, 120 and 150: the
callbacks are called in registration order and, there being no `try` inside
the loop, the first one that throws ends it.  A data callback is foreign code,
known by its identity and by whether it throws. -/
def forEachDataCallback (env : Env) (payload : Option Json) :
    List Nat → Runtime → Runtime × Except JSError Unit
  | [], rt => (rt, .ok ())
  | callback :: rest, rt =>
    let rt1 := { rt with calls := rt.calls ++ [(callback, payload)] }
    if env.listenerThrows callback payload then (rt1, .error (.thrownByListener callback))
    else forEachDataCallback env payload rest rt1

/-- Method `updateInitialState(state)` (lines 148-154): the `catch` logs the
error of a throwing callback. -/
def updateInitialState (env : Env) (rt : Runtime) (state : Option Json) : Runtime :=
  (forEachDataCallback env state rt.self.onDataCallbacks rt).1

/-- The browser runs the oldest callback queued with `requestAnimationFrame`. -/
def animationFrameFired (env : Env) (rt : Runtime) : Runtime × Except JSError Unit :=
  match rt.animationFrames with
  | [] => (rt, .ok ())
  | frame :: rest =>
    let rt1 := { rt with animationFrames := rest }
    match frame with
    | .forEachCallback payload => forEachDataCallback env payload rt1.self.onDataCallbacks rt1
    | .updateInitialState state => (updateInitialState env rt1 state, .ok ())

/-- Method `subscribeToData(callback)` (lines 156-166); `callback` is `none` when
the argument is not a function.  The result names the callback that the
returned closure deletes, `none` for the closure that does nothing. -/
def subscribeToData (rt : Runtime) (callback : Option Nat) : Runtime × Option Nat :=
  match callback with
  | none => (rt, none)
  | some c =>
    ({ rt with self := { rt.self with
        onDataCallbacks :=
          if c ∈ rt.self.onDataCallbacks then rt.self.onDataCallbacks
          else rt.self.onDataCallbacks ++ [c] } },
     some c)

/-- The closure returned by `subscribeToData` (lines 163-165), called. -/
def unsubscribe (rt : Runtime) (callback : Nat) : Runtime :=
  { rt with self := { rt.self with
      onDataCallbacks := rt.self.onDataCallbacks.filter (fun c => c != callback) } }

/-- Method `subscribeToDevice(deviceId)` (lines 168-184). -/
def subscribeToDevice (rt : Runtime) (deviceId : Option String) :
    Runtime × Except JSError Unit :=
  match deviceId with
  | none => (rt, .ok ())
  | some d =>
    if d = "" then (rt, .ok ())
    else if rt.isOpen then
      match rt.sockets[rt.self.socket.getD 0]? with
      | none => (rt, .ok ())
      | some ws =>
        match ws.send (subscribeFrame d) with
        | .error e => (rt, .error e)
        | .ok ws1 =>
          ({ rt with sockets := rt.sockets.set (rt.self.socket.getD 0) ws1 }, .ok ())
    else (rt, .ok ())

/-- Method `disconnect()` (lines 186-200). -/
def disconnect (rt : Runtime) : Runtime × Except JSError Unit :=
  let rt1 :=
    if handleTruthy rt.self.reconnectTimeout then
      let cleared := rt.clearTimeout (rt.self.reconnectTimeout.getD 0)
      { cleared with self := { cleared.self with reconnectTimeout := none } }
    else rt
  let closed : Except JSError Runtime :=
    match rt1.self.socket with
    | none => .ok rt1
    | some sk =>
      match rt1.sockets[sk]? with
      | none => .ok { rt1 with self := { rt1.self with socket := none } }
      | some ws =>
        match ws.close (some 1000) (some "Cierre iniciado por el cliente") with
        | .error e => .error e
        | .ok ws1 =>
          .ok { rt1 with
            sockets := rt1.sockets.set sk ws1
            self := { rt1.self with socket := none } }
  match closed with
  | .error e => (rt1, .error e)
  | .ok rt2 =>
    ({ rt2 with self := { rt2.self with
        isConnecting := false, reconnectAttempts := 0, onDataCallbacks := [] } },
     .ok ())

/-- Everything that can happen to the client: the calls a caller can make and
the events the platform dispatches. -/
inductive Action where
  | connect (token : Option String)
  | subscribeToData (callback : Option Nat)
  | unsubscribe (callback : Nat)
  | subscribeToDevice (deviceId : Option String)
  | disconnect
  | socketOpened (sk : Nat)
  | socketMessage (event : MessageEvent) (now : Int)
  | socketErrored
  | socketClosed (sk : Nat) (event : CloseEvent)
  | timerFired (handle : Nat)
  | animationFrameFired

/-- The runtime after one action; a timer fires only while it is pending. -/
def step (env : Env) (rt : Runtime) : Action → Runtime
  | .connect token => connect env rt token
  | .subscribeToData callback => (subscribeToData rt callback).1
  | .unsubscribe callback => unsubscribe rt callback
  | .subscribeToDevice deviceId => (subscribeToDevice rt deviceId).1
  | .disconnect => (disconnect rt).1
  | .socketOpened sk => socketOpened rt sk
  | .socketMessage event now => onmessage env event now rt
  | .socketErrored => onerror rt
  | .socketClosed sk event => socketClosed rt sk event
  | .timerFired handle =>
    if rt.timers.any (fun t => t.id == handle) then reconnectCallback env rt handle else rt
  | .animationFrameFired => (animationFrameFired env rt).1

/-- The runtime after a sequence of actions. -/
def run (env : Env) (rt : Runtime) (actions : List Action) : Runtime :=
  actions.foldl (step env) rt

/-- What the constructor fixes for good and what the platform guarantees of
timer handles: the two limits keep their values and handles are positive. -/
def Runtime.Settled (rt : Runtime) : Prop :=
  rt.self.maxReconnectAttempts = 5 ∧ rt.self.messageThreshold = 100 ∧ 1 ≤ rt.nextTimer ∧
  ∀ h, rt.self.reconnectTimeout = some h → 1 ≤ h

/-- A subscription acknowledgement that carries a state snapshot. -/
def subscriptionSuccess : Json :=
  .obj [("type", .str "SUBSCRIPTION_SUCCESS"), ("device_id", .str "480D3220691C"),
        ("current_state", .obj [("temperature", .num 20)])]

/-- An initial-state frame that carries data. -/
def initialState : Json :=
  .obj [("type", .str "INITIAL_STATE"), ("data", .obj [("humidity", .num 55)])]

/-- A telemetry frame. -/
def telemetry : Json :=
  .obj [("type", .str "ESP_DATA"), ("data", .obj [("temperature", .num 21)])]

/-- A platform like `sampleEnv` whose `JSON.parse` reads three texts. -/
def mixedEnv : Env :=
  { sampleEnv with
    parse := fun text =>
      if text = "subscribed" then some subscriptionSuccess
      else if text = "initial" then some initialState
      else if text = "telemetry" then some telemetry
      else none }

/-- A fresh client on which data callback 7 was registered. -/
def watchedRuntime : Runtime :=
  (subscribeToData Runtime.initial (some 7)).1

end ConnetSocket

/-! Embedding of `esp-monitor/src/services/websocket.js`. -/

namespace EspMonitor
open JS

/-- Instance fields of the class `WebSocketService` of `services/websocket.js`. -/
structure WebSocketService where
  url : String
  token : String
  socket : Option Nat
  listeners : List Nat
  deviceId : Option String
  retryTimeout : Option Nat
  deriving DecidableEq, Repr

/-- Fields read through a reference that points at no object. -/
instance : Inhabited WebSocketService :=
  ⟨{ url := "", token := "", socket := none, listeners := [], deviceId := none,
     retryTimeout := none }⟩

/-- The two closures this file passes to `setTimeout`. -/
inductive TimerCallback where
  /-- Lines 43-48, capturing `this` and the `reject` of the promise. -/
  | connectionTimeout (self : Nat) (promise : Nat)
  /-- Line 81: `() => this.connect()`. -/
  | retry (self : Nat)
  deriving DecidableEq, Repr

/-- A pending `setTimeout`. -/
structure Timer where
  id : Nat
  delay : Nat
  callback : TimerCallback
  deriving DecidableEq, Repr

/-- A socket built by `connect`, with what its four handlers capture: `this`,
the promise whose `resolve` and `reject` they call, and the local
`connectionTimeout` handle. -/
structure Socket where
  ws : WebSocket
  self : Nat
  promise : Nat
  connectionTimeout : Nat

/-- The socket after one more frame was handed to its `send`. -/
def Socket.appendSent (s : Socket) (frame : Json) : Socket :=
  { s with ws := { s.ws with sent := s.ws.sent ++ [frame] } }

/-- The static fields of the class and the objects of the page. -/
structure Runtime where
  /-- Static field `WebSocketService.instance` (a keyword of Lean, hence the
  longer name): a reference into `objects`. -/
  instanceRef : Option Nat
  /-- Static field `WebSocketService.connecting` (never read or written). -/
  connecting : Bool
  /-- Static field `WebSocketService.connectionPromise`. -/
  connectionPromise : Option Nat
  /-- Every `WebSocketService` object built so far. -/
  objects : List WebSocketService
  /-- Every socket built so far. -/
  sockets : List Socket
  /-- URLs of the evaluations of `new WebSocket(...)`, throwing ones included. -/
  wsCalls : List String
  timers : List Timer
  nextTimer : Nat
  promises : List PromiseState
  /-- Calls made to listeners, oldest first. -/
  calls : List (Nat × Option Json)

/-- Runtime of a page that has just loaded the module; timer handles start at 1. -/
def Runtime.initial : Runtime :=
  { instanceRef := none, connecting := false, connectionPromise := none, objects := [],
    sockets := [], wsCalls := [], timers := [], nextTimer := 1, promises := [], calls := [] }

/-- The fields of object `this`. -/
def Runtime.getSelf (rt : Runtime) (this : Nat) : WebSocketService :=
  rt.objects.getD this default

/-- Assignment to the fields of object `this`. -/
def Runtime.setSelf (rt : Runtime) (this : Nat) (self : WebSocketService) : Runtime :=
  { rt with objects := rt.objects.set this self }

/-- The test `this.socket?.readyState === WebSocket.OPEN`. -/
def Runtime.isOpen (rt : Runtime) (this : Nat) : Bool :=
  match (rt.getSelf this).socket with
  | none => false
  | some sk =>
    match rt.sockets[sk]? with
    | none => false
    | some s => s.ws.readyState == .OPEN

/-- Platform `setTimeout(callback, delay)`. -/
def Runtime.setTimeout (rt : Runtime) (callback : TimerCallback) (delay : Nat) :
    Runtime × Nat :=
  ({ rt with
      timers := rt.timers ++ [{ id := rt.nextTimer, delay := delay, callback := callback }]
      nextTimer := rt.nextTimer + 1 },
   rt.nextTimer)

/-- Platform `clearTimeout(handle)`; a `null` handle clears nothing. -/
def Runtime.clearTimeout (rt : Runtime) (handle : Option Nat) : Runtime :=
  match handle with
  | none => rt
  | some h => { rt with timers := rt.timers.filter (fun t => t.id != h) }

/-- Call of `close(code, reason)` on socket `sk`. -/
def Runtime.closeSocket (rt : Runtime) (sk : Nat) (code : Option Nat)
    (reason : Option String) : Except JSError Runtime :=
  match rt.sockets[sk]? with
  | none => .ok rt
  | some s =>
    match s.ws.close code reason with
    | .error e => .error e
    | .ok ws => .ok { rt with sockets := rt.sockets.set sk { s with ws := ws } }

/-- Call of `send(data)` on socket `sk`. -/
def Runtime.sendSocket (rt : Runtime) (sk : Nat) (data : Json) : Except JSError Runtime :=
  match rt.sockets[sk]? with
  | none => .ok rt
  | some s =>
    match s.ws.send data with
    | .error e => .error e
    | .ok ws => .ok { rt with sockets := rt.sockets.set sk { s with ws := ws } }

/-- Settling promise `p`: only a pending promise changes. -/
def Runtime.settle (rt : Runtime) (p : Nat) (outcome : PromiseState) : Runtime :=
  match rt.promises[p]? with
  | some .pending => { rt with promises := rt.promises.set p outcome }
  | _ => rt

/-- The constructor (lines 6-20): the runtime after `new WebSocketService(url, token)`
and the object the expression evaluates to. -/
def WebSocketService.constructor (rt : Runtime) (url token : String) : Runtime × Nat :=
  match rt.instanceRef with
  | some existing => (rt, existing)
  | none =>
    let this := rt.objects.length
    ({ rt with
        objects := rt.objects ++ [{ url := url, token := token, socket := none,
                                    listeners := [], deviceId := none, retryTimeout := none }]
        instanceRef := some this },
     this)

/-- JavaScript truthiness of the field `deviceId`. -/
def deviceIdTruthy : Option String → Bool
  | none => false
  | some d => d != ""

/-- The frame of lines 105-108 for a device id that may be `null`. -/
def subscribeMessage : Option String → Json
  | some d => subscribeFrame d
  | none => .obj [("type", .str "SUBSCRIBE"), ("device_id", .null)]

/-- Method `subscribeToDevice(deviceId)` (lines 101-110). -/
def subscribeToDevice (rt : Runtime) (this : Nat) (deviceId : Option String) :
    Runtime × Except JSError Unit :=
  let rt1 := rt.setSelf this { rt.getSelf this with deviceId := deviceId }
  if rt1.isOpen this then
    match rt1.sendSocket ((rt1.getSelf this).socket.getD 0) (subscribeMessage deviceId) with
    | .error e => (rt1, .error e)
    | .ok rt2 => (rt2, .ok ())
  else (rt1, .ok ())

/-- What a call of `connect()` returns; the promise that the `async` wrapper
puts around it settles as this one does. -/
inductive ConnectResult where
  /-- Line 25: `Promise.resolve(this.socket)`. -/
  | resolved (socket : Option Nat)
  /-- Lines 30 and 98: the promise held in `WebSocketService.connectionPromise`. -/
  | promise (p : Nat)
  deriving DecidableEq, Repr

/-- The executor passed to `new Promise` (lines 33-96); `p` is the promise under
construction.  It runs inside the `new Promise` expression, before the
assignment of line 33 takes place. -/
def connectExecutor (env : Env) (rt : Runtime) (this : Nat) (p : Nat) : Runtime :=
  let cleaned : Except JSError Runtime :=
    match (rt.getSelf this).socket with
    | none => .ok rt
    | some sk =>
      match rt.closeSocket sk none none with
      | .error e => .error e
      | .ok rt1 => .ok (rt1.setSelf this { rt1.getSelf this with socket := none })
  match cleaned with
  | .error e => Runtime.settle { rt with connectionPromise := none } p (.rejected e)
  | .ok rt1 =>
    let self := rt1.getSelf this
    let url := self.url ++ "?token=Bearer " ++ self.token
    let rt2 := { rt1 with wsCalls := rt1.wsCalls ++ [url] }
    if env.wsThrows url then
      Runtime.settle { rt2 with connectionPromise := none } p (.rejected .SyntaxError)
    else
      let sk := rt2.sockets.length
      let armed := rt2.setTimeout (.connectionTimeout this p) 5000
      let rt3 := armed.1
      let connectionTimeout := armed.2
      let built : Socket :=
        { ws := WebSocket.create url, self := this, promise := p,
          connectionTimeout := connectionTimeout }
      let rt4 : Runtime := { rt3 with sockets := rt3.sockets ++ [built] }
      rt4.setSelf this { rt4.getSelf this with socket := some sk }

/-- Method `connect()` (lines 22-99). -/
def connect (env : Env) (rt : Runtime) (this : Nat) : Runtime × ConnectResult :=
  if rt.isOpen this then (rt, .resolved (rt.getSelf this).socket)
  else
    match rt.connectionPromise with
    | some p => (rt, .promise p)
    | none =>
      let p := rt.promises.length
      let rt1 := connectExecutor env { rt with promises := rt.promises ++ [.pending] } this p
      ({ rt1 with connectionPromise := some p }, .promise p)

/-- Handler `socket.onopen` (lines 50-60) of socket `s`. -/
def onopen (rt : Runtime) (s : Socket) : Runtime × Except JSError Unit :=
  let rt1 := rt.clearTimeout (some s.connectionTimeout)
  let rt2 := { rt1 with connectionPromise := none }
  let subscribed :=
    if deviceIdTruthy (rt2.getSelf s.self).deviceId then
      subscribeToDevice rt2 s.self (rt2.getSelf s.self).deviceId
    else (rt2, .ok ())
  match subscribed with
  | (rt3, .error e) => (rt3, .error e)
  | (rt3, .ok _) => (rt3.settle s.promise (.fulfilled (rt3.getSelf s.self).socket), .ok ())

/-- One call `callback(data)` made by `notifyListeners`, inside its `try`. -/
def callListener (env : Env) (rt : Runtime) (callback : Nat) (data : Option Json) :
    Runtime × Except JSError Unit :=
  ({ rt with calls := rt.calls ++ [(callback, data)] },
   if env.listenerThrows callback data then .error (.thrownByListener callback) else .ok ())

/-- The body of the `forEach` of lines 123-129 for one listener: the `catch`
logs the error and the loop goes on. -/
def notifyOne (env : Env) (data : Option Json) (rt : Runtime) (callback : Nat) : Runtime :=
  match callListener env rt callback data with
  | (rt1, .ok _) => rt1
  | (rt1, .error _) => rt1

/-- Method `notifyListeners(data)` (lines 122-130).  A listener is foreign code:
it is known by its identity and by whether it throws, and it does not call
back into the service while it is being notified. -/
def notifyListeners (env : Env) (rt : Runtime) (this : Nat) (data : Option Json) :
    Runtime × Except JSError Unit :=
  ((rt.getSelf this).listeners.foldl (notifyOne env data) rt, .ok ())

/-- Handler `socket.onmessage` (lines 62-71) of socket `s`. -/
def onmessage (env : Env) (rt : Runtime) (s : Socket) (eventData : String) :
    Runtime × Except JSError Unit :=
  match env.parse eventData with
  | none => (rt, .ok ())
  | some .null => (rt, .ok ())
  | some data =>
    if messageType data = some "ESP_DATA" then
      match notifyListeners env rt s.self (data.get "data") with
      | (rt1, _) => (rt1, .ok ())
    else (rt, .ok ())

/-- Handler `socket.onclose` (lines 73-83) of socket `s`. -/
def onclose (rt : Runtime) (s : Socket) (wasClean : Bool) : Runtime :=
  let rt1 := { rt with connectionPromise := none }
  let rt2 := rt1.setSelf s.self { rt1.getSelf s.self with socket := none }
  if !wasClean then
    let rt3 := rt2.clearTimeout (rt2.getSelf s.self).retryTimeout
    let armed := rt3.setTimeout (.retry s.self) 3000
    let rt4 := armed.1
    rt4.setSelf s.self { rt4.getSelf s.self with retryTimeout := some armed.2 }
  else rt2

/-- Handler `socket.onerror` (lines 85-90) of socket `s`. -/
def onerror (rt : Runtime) (s : Socket) : Runtime :=
  let rt1 := rt.clearTimeout (some s.connectionTimeout)
  let rt2 := { rt1 with connectionPromise := none }
  rt2.settle s.promise (.rejected (.Error "WebSocket error"))

/-- The timer callback of lines 43-48. -/
def connectionTimeoutCallback (rt : Runtime) (this : Nat) (p : Nat) : Runtime :=
  if !rt.isOpen this then
    let closed : Except JSError Runtime :=
      match (rt.getSelf this).socket with
      | none => .ok rt
      | some sk => rt.closeSocket sk none none
    match closed with
    | .error _ => rt
    | .ok rt1 => rt1.settle p (.rejected (.Error "Connection timeout"))
  else rt

/-- Method `removeListener(callback)` (lines 118-120). -/
def removeListener (rt : Runtime) (this : Nat) (callback : Nat) : Runtime :=
  rt.setSelf this
    { rt.getSelf this with listeners := (rt.getSelf this).listeners.filter (fun c => c != callback) }

/-- Method `addListener(callback)` (lines 112-116); `callback` is `none` when the
argument is not a function.  The result names the callback captured by the
returned unsubscribe closure, `none` standing for `undefined`. -/
def addListener (rt : Runtime) (this : Nat) (callback : Option Nat) : Runtime × Option Nat :=
  match callback with
  | none => (rt, none)
  | some c =>
    let self := rt.getSelf this
    (rt.setSelf this
      { self with listeners := if c ∈ self.listeners then self.listeners else self.listeners ++ [c] },
     some c)

/-- Method `disconnect()` (lines 132-143). -/
def disconnect (rt : Runtime) (this : Nat) : Runtime × Except JSError Unit :=
  let rt1 := rt.clearTimeout (rt.getSelf this).retryTimeout
  let rt2 := rt1.setSelf this { rt1.getSelf this with listeners := [] }
  match (rt2.getSelf this).socket with
  | some sk =>
    match rt2.closeSocket sk (some 1000) (some "Normal closure") with
    | .error e => (rt2, .error e)
    | .ok rt3 =>
      let rt4 := rt3.setSelf this { rt3.getSelf this with socket := none }
      ({ rt4 with instanceRef := none, connectionPromise := none }, .ok ())
  | none => ({ rt2 with instanceRef := none, connectionPromise := none }, .ok ())

/-- The pending timer `handle` fires: the platform takes it off the pending
list and runs its callback. -/
def timerFired (env : Env) (rt : Runtime) (handle : Nat) : Runtime :=
  match rt.timers.find? (fun t => t.id == handle) with
  | none => rt
  | some t =>
    let rt1 := { rt with timers := rt.timers.filter (fun u => u.id != handle) }
    match t.callback with
    | .connectionTimeout this p => connectionTimeoutCallback rt1 this p
    | .retry this => (connect env rt1 this).1

/-- The browser reports socket `sk` open: `readyState` becomes `OPEN` and the
`open` event runs its `onopen`. -/
def socketOpened (rt : Runtime) (sk : Nat) : Runtime × Except JSError Unit :=
  match rt.sockets[sk]? with
  | none => (rt, .ok ())
  | some s =>
    let opened : Socket := { s with ws := { s.ws with readyState := .OPEN } }
    onopen { rt with sockets := rt.sockets.set sk opened } opened

/-- The browser reports socket `sk` closed: `readyState` becomes `CLOSED` and the
`close` event runs its `onclose`. -/
def socketClosed (rt : Runtime) (sk : Nat) (wasClean : Bool) : Runtime :=
  match rt.sockets[sk]? with
  | none => rt
  | some s =>
    let closed : Socket := { s with ws := { s.ws with readyState := .CLOSED } }
    onclose { rt with sockets := rt.sockets.set sk closed } closed wasClean

/-- The runtime after `new WebSocketService("ws://host/ws/frontend", "abc")` on a
freshly loaded page. -/
def sampleRuntime : Runtime :=
  (WebSocketService.constructor Runtime.initial "ws://host/ws/frontend" "abc").1

/-- The browser reports an error on socket `sk`: the `error` event runs its
`onerror`. -/
def socketErrored (rt : Runtime) (sk : Nat) : Runtime :=
  match rt.sockets[sk]? with
  | none => rt
  | some s => onerror rt s

/-- The browser delivers a frame on socket `sk`: the `message` event runs its
`onmessage`. -/
def socketMessage (env : Env) (rt : Runtime) (sk : Nat) (eventData : String) :
    Runtime × Except JSError Unit :=
  match rt.sockets[sk]? with
  | none => (rt, .ok ())
  | some s => onmessage env rt s eventData

/-- Everything that can happen to the page apart from `subscribeToDevice`: the
calls a caller can make and the events the platform dispatches. -/
inductive Action where
  | construct (url token : String)
  | connect (this : Nat)
  | addListener (this : Nat) (callback : Option Nat)
  | removeListener (this : Nat) (callback : Nat)
  | disconnect (this : Nat)
  | socketOpened (sk : Nat)
  | socketMessage (sk : Nat) (eventData : String)
  | socketErrored (sk : Nat)
  | socketClosed (sk : Nat) (wasClean : Bool)
  | timerFired (handle : Nat)

/-- The runtime after one action. -/
def step (env : Env) (rt : Runtime) : Action → Runtime
  | .construct url token => (WebSocketService.constructor rt url token).1
  | .connect this => (connect env rt this).1
  | .addListener this callback => (addListener rt this callback).1
  | .removeListener this callback => removeListener rt this callback
  | .disconnect this => (disconnect rt this).1
  | .socketOpened sk => (socketOpened rt sk).1
  | .socketMessage sk eventData => (socketMessage env rt sk eventData).1
  | .socketErrored sk => socketErrored rt sk
  | .socketClosed sk wasClean => socketClosed rt sk wasClean
  | .timerFired handle => timerFired env rt handle

/-- The runtime after a sequence of actions. -/
def run (env : Env) (rt : Runtime) (actions : List Action) : Runtime :=
  actions.foldl (step env) rt

/-- The device ids recorded in the objects of the page, in allocation order. -/
def Runtime.deviceIds (rt : Runtime) : List (Option String) :=
  rt.objects.map (fun o => o.deviceId)

/-- The sample client after `addListener` of the callbacks 7, 8 and 9. -/
def listeningRuntime : Runtime :=
  (addListener (addListener (addListener sampleRuntime 0 (some 7)).1 0 (some 8)).1 0 (some 9)).1

/-- The sample client right after `connect()`: socket built, connection
timeout armed, promise pending. -/
def pendingRuntime : Runtime :=
  (connect sampleEnv sampleRuntime 0).1

/-- The closure returned by `addListener` (line 115), called: it runs
`this.removeListener(callback)`. -/
def unsubscribe (rt : Runtime) (this : Nat) (callback : Nat) : Runtime :=
  removeListener rt this callback

/-- A platform like `sampleEnv` whose `WebSocket` constructor throws for every
URL. -/
def rejectingEnv : Env :=
  { sampleEnv with wsThrows := fun _ => true }

end EspMonitor

/-! Properties of `esp-monitor/src/services/websocket.js`. -/

namespace EspMonitor
open JS

/-! Frame lemmas of the runtime primitives. -/

theorem getSelf_setSelf_of_lt (rt : Runtime) (this : Nat) (s : WebSocketService)
    (h : this < rt.objects.length) : (rt.setSelf this s).getSelf this = s := by
  simp [Runtime.getSelf, Runtime.setSelf, List.getD, h]

theorem setSelf_of_le (rt : Runtime) (this : Nat) (s : WebSocketService)
    (h : rt.objects.length ≤ this) : rt.setSelf this s = rt := by
  simp [Runtime.setSelf, List.set_eq_of_length_le h]

theorem getSelf_of_le (rt : Runtime) (this : Nat)
    (h : rt.objects.length ≤ this) : rt.getSelf this = default := by
  simp [Runtime.getSelf, List.getD, List.getElem?_eq_none h]

theorem settle_frame (rt : Runtime) (p : Nat) (o : PromiseState) :
    (rt.settle p o).objects = rt.objects ∧ (rt.settle p o).sockets = rt.sockets ∧
    (rt.settle p o).wsCalls = rt.wsCalls ∧ (rt.settle p o).timers = rt.timers ∧
    (rt.settle p o).connectionPromise = rt.connectionPromise ∧
    (rt.settle p o).instanceRef = rt.instanceRef ∧
    (rt.settle p o).nextTimer = rt.nextTimer ∧ (rt.settle p o).calls = rt.calls := by
  unfold Runtime.settle
  split <;> simp

end EspMonitor

/-! Properties of `test/connetsocket.js`. -/

namespace ConnetSocket
open JS

theorem retryDelay_mono (n m : Nat) (h : n ≤ m) : retryDelay n ≤ retryDelay m := by
  unfold retryDelay
  exact min_le_min (Nat.mul_le_mul_left _ (Nat.pow_le_pow_right (by norm_num) h)) le_rfl

theorem handleClose_scheduled (rt : Runtime) (event : CloseEvent)
    (h4001 : event.code ≠ 4001) (h1000 : event.code ≠ 1000)
    (hlt : rt.self.reconnectAttempts < rt.self.maxReconnectAttempts) :
    handleClose rt event =
      { rt with
        timers := rt.timers ++ [{ id := rt.nextTimer, delay := retryDelay rt.self.reconnectAttempts }]
        nextTimer := rt.nextTimer + 1
        self := { rt.self with isConnecting := false, reconnectTimeout := some rt.nextTimer } } := by
  simp [handleClose, h4001, h1000, hlt, Runtime.setTimeout]

theorem handleClose_not_scheduled (rt : Runtime) (event : CloseEvent)
    (h : event.code = 4001 ∨ event.code = 1000 ∨
      rt.self.maxReconnectAttempts ≤ rt.self.reconnectAttempts) :
    handleClose rt event = { rt with self := { rt.self with isConnecting := false } } := by
  unfold handleClose
  rcases h with h | h | h
  · simp [h]
  · simp [h]
  · simp [Nat.not_lt.mpr h]

theorem handleMessage_telemetry (rt : Runtime) (message : Json)
    (h : messageType message = some "ESP_DATA") :
    handleMessage rt message = rt.requestAnimationFrame (.forEachCallback (message.get "data")) := by
  cases message <;> simp_all [handleMessage, messageType, Json.get]

theorem onmessage_admitted (env : Env) (event : MessageEvent) (now : Int) (rt : Runtime)
    (message : Json) (hparse : env.parse event.data = some message)
    (htype : messageType message = some "ESP_DATA")
    (h : now - rt.self.lastMessageTimestamp > rt.self.messageThreshold) :
    onmessage env event now rt =
      { rt with
        self := { rt.self with lastMessageTimestamp := now }
        animationFrames := rt.animationFrames ++ [.forEachCallback (message.get "data")] } := by
  simp [onmessage, throttleMessages, h, messageCallback, hparse,
    handleMessage_telemetry _ _ htype, Runtime.requestAnimationFrame]

theorem onmessage_dropped (env : Env) (event : MessageEvent) (now : Int) (rt : Runtime)
    (h : ¬ now - rt.self.lastMessageTimestamp > rt.self.messageThreshold) :
    onmessage env event now rt = rt := by
  simp [onmessage, throttleMessages, h]

/-- C2: whenever `handleClose` computes a retry delay (the close code is neither
4001 nor 1000 and `reconnectAttempts = n` is below `maxReconnectAttempts`), it
schedules one timer whose delay is `min (1000 * 2 ^ n) 30000` milliseconds, and
that delay expression is non-decreasing in `n`. -/
theorem retry_delay_formula (rt : Runtime) (event : CloseEvent)
    (h4001 : event.code ≠ 4001) (h1000 : event.code ≠ 1000)
    (hlt : rt.self.reconnectAttempts < rt.self.maxReconnectAttempts) :
    (handleClose rt event).timers =
      rt.timers ++ [{ id := rt.nextTimer, delay := min (1000 * 2 ^ rt.self.reconnectAttempts) 30000 }] ∧
    (∀ n : Nat, retryDelay n = min (1000 * 2 ^ n) 30000) ∧
    (∀ n m : Nat, n ≤ m → retryDelay n ≤ retryDelay m) := by
  refine ⟨?_, fun _ => rfl, retryDelay_mono⟩
  rw [handleClose_scheduled rt event h4001 h1000 hlt]
  rfl

theorem retry_delay_formula_witness :
    abnormalClose.code ≠ 4001 ∧ abnormalClose.code ≠ 1000 ∧
    Runtime.initial.self.reconnectAttempts < Runtime.initial.self.maxReconnectAttempts ∧
    (handleClose Runtime.initial abnormalClose).timers = [] ++ [{ id := 1, delay := min (1000 * 2 ^ 0) 30000 }] :=
  ⟨by decide, by decide, by decide,
   (retry_delay_formula Runtime.initial abnormalClose (by decide) (by decide) (by decide)).1⟩

/-- C3: with the threshold of 100 ms set by the constructor, the handler returned
by `throttleMessages` runs the wrapped callback, on the state whose
`lastMessageTimestamp` is `now`, exactly when `now - lastMessageTimestamp > 100`,
and otherwise leaves the whole state unchanged; for telemetry frames handled by
the real `onmessage` a frame is forwarded if and only if that test holds, so
after an admitted frame a second frame 10 ms later is dropped and a second
frame 150 ms later is forwarded too. -/
theorem throttle_admits_iff (env : Env) (rt : Runtime) (now : Int)
    (h100 : rt.self.messageThreshold = 100) :
    (∀ (callback : MessageEvent → Runtime → Runtime) (event : MessageEvent),
      (now - rt.self.lastMessageTimestamp > 100 →
        throttleMessages callback event now rt =
          callback event { rt with self := { rt.self with lastMessageTimestamp := now } }) ∧
      (¬ now - rt.self.lastMessageTimestamp > 100 →
        throttleMessages callback event now rt = rt)) ∧
    (∀ (event : MessageEvent) (message : Json), env.parse event.data = some message →
      messageType message = some "ESP_DATA" →
      (((onmessage env event now rt).animationFrames =
          rt.animationFrames ++ [.forEachCallback (message.get "data")] ∧
        (onmessage env event now rt).self.lastMessageTimestamp = now) ↔
        now - rt.self.lastMessageTimestamp > 100)) ∧
    (∀ (first second : MessageEvent) (m1 m2 : Json),
      env.parse first.data = some m1 → messageType m1 = some "ESP_DATA" →
      env.parse second.data = some m2 → messageType m2 = some "ESP_DATA" →
      now - rt.self.lastMessageTimestamp > 100 →
      (onmessage env second (now + 10) (onmessage env first now rt)).animationFrames =
        rt.animationFrames ++ [.forEachCallback (m1.get "data")] ∧
      (onmessage env second (now + 150) (onmessage env first now rt)).animationFrames =
        rt.animationFrames ++
          [.forEachCallback (m1.get "data"), .forEachCallback (m2.get "data")]) := by
  refine ⟨?_, ?_, ?_⟩
  · intro callback event
    constructor
    · intro h
      simp [throttleMessages, h100, h]
    · intro h
      simp [throttleMessages, h100, h]
  · intro event message hparse htype
    constructor
    · rintro ⟨hframes, -⟩
      by_contra hnot
      rw [onmessage_dropped env event now rt (by rw [h100]; exact hnot)] at hframes
      have := congrArg List.length hframes
      simp at this
    · intro h
      rw [onmessage_admitted env event now rt message hparse htype (by rw [h100]; exact h)]
      exact ⟨rfl, rfl⟩
  · intro first second m1 m2 hp1 ht1 hp2 ht2 h
    rw [onmessage_admitted env first now rt m1 hp1 ht1 (by rw [h100]; exact h)]
    constructor
    · rw [onmessage_dropped]
      simp [h100]
    · rw [onmessage_admitted env second (now + 150) _ m2 hp2 ht2 (by simp [h100])]
      simp

theorem throttle_admits_iff_witness :
    Runtime.initial.self.messageThreshold = 100 ∧
    (onmessage telemetryEnv ⟨"frame"⟩ (1000 + 10)
        (onmessage telemetryEnv ⟨"frame"⟩ 1000 Runtime.initial)).animationFrames =
      [] ++ [.forEachCallback (some (.obj [("temperature", .num 21)]))] ∧
    (onmessage telemetryEnv ⟨"frame"⟩ (1000 + 150)
        (onmessage telemetryEnv ⟨"frame"⟩ 1000 Runtime.initial)).animationFrames =
      [] ++ [.forEachCallback (some (.obj [("temperature", .num 21)])),
             .forEachCallback (some (.obj [("temperature", .num 21)]))] :=
  ⟨rfl,
   (throttle_admits_iff telemetryEnv Runtime.initial 1000 rfl).2.2 ⟨"frame"⟩ ⟨"frame"⟩ _ _
     rfl rfl rfl rfl (by decide)⟩

/-- C4: for a close event with code 1000 or 4001, in every state, `handleClose`
schedules no timer and leaves `reconnectAttempts` (and the stored retry handle)
unchanged: it only sets `isConnecting` to false. -/
theorem terminal_close_no_retry (rt : Runtime) (event : CloseEvent)
    (hcode : event.code = 1000 ∨ event.code = 4001) :
    (handleClose rt event).timers = rt.timers ∧
    (handleClose rt event).nextTimer = rt.nextTimer ∧
    (handleClose rt event).self.reconnectAttempts = rt.self.reconnectAttempts ∧
    (handleClose rt event).self.reconnectTimeout = rt.self.reconnectTimeout ∧
    handleClose rt event = { rt with self := { rt.self with isConnecting := false } } := by
  have h := handleClose_not_scheduled rt event
    (hcode.elim (fun h => Or.inr (Or.inl h)) (fun h => Or.inl h))
  rw [h]
  exact ⟨rfl, rfl, rfl, rfl, rfl⟩

theorem terminal_close_no_retry_witness :
    ((4001 : Nat) = 1000 ∨ (4001 : Nat) = 4001) ∧
    (handleClose exhaustedRuntime ⟨4001, "auth", false⟩).timers = exhaustedRuntime.timers ∧
    (handleClose Runtime.initial ⟨4001, "auth", false⟩).self.reconnectAttempts = 0 :=
  ⟨by decide,
   (terminal_close_no_retry exhaustedRuntime ⟨4001, "auth", false⟩ (Or.inr rfl)).1,
   (terminal_close_no_retry Runtime.initial ⟨4001, "auth", false⟩ (Or.inr rfl)).2.2.1⟩

end ConnetSocket

namespace EspMonitor
open JS

theorem map_deviceId_set (l : List WebSocketService) (j : Nat) (s : WebSocketService)
    (h : s.deviceId = (l.getD j default).deviceId) :
    (l.set j s).map (fun o => o.deviceId) = l.map (fun o => o.deviceId) := by
  by_cases hj : j < l.length
  · apply List.ext_getElem
    · simp
    · intro n h1 h2
      by_cases hn : j = n
      · subst hn
        simp [List.getD, hj] at h
        simp [h]
      · simp [List.getElem_set_ne hn]
  · rw [List.set_eq_of_length_le (not_lt.mp hj)]

@[simp] theorem deviceIds_setSelf (rt : Runtime) (j : Nat) (s : WebSocketService)
    (h : s.deviceId = (rt.getSelf j).deviceId) :
    (rt.setSelf j s).deviceIds = rt.deviceIds :=
  map_deviceId_set rt.objects j s h

@[simp] theorem deviceIds_clearTimeout (rt : Runtime) (h : Option Nat) :
    (rt.clearTimeout h).deviceIds = rt.deviceIds := by
  cases h <;> rfl

@[simp] theorem deviceIds_setTimeout (rt : Runtime) (cb : TimerCallback) (d : Nat) :
    (rt.setTimeout cb d).1.deviceIds = rt.deviceIds := rfl

@[simp] theorem deviceIds_settle (rt : Runtime) (p : Nat) (o : PromiseState) :
    (rt.settle p o).deviceIds = rt.deviceIds := by
  unfold Runtime.settle
  split <;> rfl

theorem deviceIds_congr {rt1 rt2 : Runtime} (h : rt1.objects = rt2.objects) :
    rt1.deviceIds = rt2.deviceIds := by
  simp [Runtime.deviceIds, h]

theorem closeSocket_objects (rt rt1 : Runtime) (sk : Nat) (code : Option Nat)
    (reason : Option String) (h : rt.closeSocket sk code reason = .ok rt1) :
    rt1.objects = rt.objects := by
  unfold Runtime.closeSocket at h
  split at h
  · cases h; rfl
  · split at h
    · cases h
    · cases h; rfl

theorem sendSocket_objects (rt rt1 : Runtime) (sk : Nat) (data : Json)
    (h : rt.sendSocket sk data = .ok rt1) : rt1.objects = rt.objects := by
  unfold Runtime.sendSocket at h
  split at h
  · cases h; rfl
  · split at h
    · cases h
    · cases h; rfl

theorem deviceIds_onclose (rt : Runtime) (s : Socket) (wasClean : Bool) :
    (onclose rt s wasClean).deviceIds = rt.deviceIds := by
  unfold onclose
  cases wasClean <;> simp <;> rfl

theorem deviceIds_onerror (rt : Runtime) (s : Socket) :
    (onerror rt s).deviceIds = rt.deviceIds := by
  unfold onerror
  simp
  rfl

theorem deviceIds_subscribe_same (rt : Runtime) (this : Nat) :
    (subscribeToDevice rt this (rt.getSelf this).deviceId).1.deviceIds = rt.deviceIds := by
  unfold subscribeToDevice
  simp only []
  split
  · split
    · simp
    · rename_i rt2 h
      rw [deviceIds_congr (sendSocket_objects _ _ _ _ h)]
      simp
  · simp

theorem deviceIds_onopen (rt : Runtime) (s : Socket) :
    (onopen rt s).1.deviceIds = rt.deviceIds := by
  have hsub := deviceIds_subscribe_same
    ({ rt.clearTimeout (some s.connectionTimeout) with connectionPromise := none }) s.self
  unfold onopen
  simp only []
  split
  · rename_i rt3 e h
    split at h
    · rw [h] at hsub; simpa using hsub
    · cases h
  · rename_i rt3 u h
    split at h
    · rw [h] at hsub
      simp at hsub ⊢
      rw [hsub]; rfl
    · cases h
      simp
      rfl

theorem notifyOne_eq (env : Env) (data : Option Json) (rt : Runtime) (c : Nat) :
    notifyOne env data rt c = { rt with calls := rt.calls ++ [(c, data)] } := by
  cases h : env.listenerThrows c data <;> simp [notifyOne, callListener, h]

theorem notifyListeners_fold (env : Env) (data : Option Json) (ls : List Nat) (rt : Runtime) :
    ls.foldl (notifyOne env data) rt =
      { rt with calls := rt.calls ++ ls.map (fun c => (c, data)) } := by
  induction ls generalizing rt with
  | nil => simp
  | cons c cs ih =>
    rw [List.foldl_cons, ih, notifyOne_eq]
    simp

theorem deviceIds_onmessage (env : Env) (rt : Runtime) (s : Socket) (eventData : String) :
    (onmessage env rt s eventData).1.deviceIds = rt.deviceIds := by
  unfold onmessage
  split
  · rfl
  · rfl
  · split
    · simp [notifyListeners, notifyListeners_fold]
      rfl
    · rfl

theorem deviceIds_connectionTimeoutCallback (rt : Runtime) (this p : Nat) :
    (connectionTimeoutCallback rt this p).deviceIds = rt.deviceIds := by
  unfold connectionTimeoutCallback
  split
  · simp only []
    split
    · rfl
    · rename_i rt1 h
      split at h
      · cases h; simp
      · simp; exact deviceIds_congr (closeSocket_objects _ _ _ _ _ h)
  · rfl

theorem deviceIds_connectExecutor (env : Env) (rt : Runtime) (this p : Nat) :
    (connectExecutor env rt this p).deviceIds = rt.deviceIds := by
  unfold connectExecutor
  simp only []
  split
  · simp; rfl
  · rename_i rt1 h
    have h1 : rt1.deviceIds = rt.deviceIds := by
      split at h
      · cases h; rfl
      · split at h
        · cases h
        · rename_i rt0 h0
          cases h
          simp
          exact deviceIds_congr (closeSocket_objects _ _ _ _ _ h0)
    split
    · simp; exact h1
    · simp; exact h1

theorem deviceIds_connect (env : Env) (rt : Runtime) (this : Nat) :
    (connect env rt this).1.deviceIds = rt.deviceIds := by
  unfold connect
  split
  · rfl
  · split
    · rfl
    · show (connectExecutor _ _ _ _).deviceIds = _
      rw [deviceIds_connectExecutor]; rfl

theorem deviceIds_disconnect (rt : Runtime) (this : Nat) :
    (disconnect rt this).1.deviceIds = rt.deviceIds := by
  unfold disconnect
  simp only []
  split
  · split
    · simp
    · rename_i rt3 h
      show (Runtime.setSelf _ _ _).deviceIds = _
      simp
      rw [deviceIds_congr (closeSocket_objects _ _ _ _ _ h)]
      simp
  · show (Runtime.setSelf _ _ _).deviceIds = _
    simp

theorem deviceIds_addListener (rt : Runtime) (this : Nat) (callback : Option Nat) :
    (addListener rt this callback).1.deviceIds = rt.deviceIds := by
  unfold addListener
  split <;> simp

theorem deviceIds_removeListener (rt : Runtime) (this callback : Nat) :
    (removeListener rt this callback).deviceIds = rt.deviceIds := by
  unfold removeListener
  simp

theorem deviceIds_timerFired (env : Env) (rt : Runtime) (handle : Nat) :
    (timerFired env rt handle).deviceIds = rt.deviceIds := by
  unfold timerFired
  split
  · rfl
  · simp only []
    split
    · rw [deviceIds_connectionTimeoutCallback]; rfl
    · rw [deviceIds_connect]; rfl

theorem deviceIds_step (env : Env) (rt : Runtime) (a : Action) :
    ∃ rest, (step env rt a).deviceIds = rt.deviceIds ++ rest := by
  cases a with
  | construct url token =>
    simp only [step, WebSocketService.constructor]
    split
    · exact ⟨[], by simp⟩
    · exact ⟨[none], by simp [Runtime.deviceIds]⟩
  | connect this => exact ⟨[], by simp [step, deviceIds_connect]⟩
  | addListener this callback => exact ⟨[], by simp [step, deviceIds_addListener]⟩
  | removeListener this callback => exact ⟨[], by simp [step, deviceIds_removeListener]⟩
  | disconnect this => exact ⟨[], by simp [step, deviceIds_disconnect]⟩
  | socketOpened sk =>
    refine ⟨[], ?_⟩
    simp only [step, socketOpened, List.append_nil]
    split
    · rfl
    · rw [deviceIds_onopen]; rfl
  | socketMessage sk eventData =>
    refine ⟨[], ?_⟩
    simp only [step, socketMessage, List.append_nil]
    split
    · rfl
    · rw [deviceIds_onmessage]
  | socketErrored sk =>
    refine ⟨[], ?_⟩
    simp only [step, socketErrored, List.append_nil]
    split
    · rfl
    · rw [deviceIds_onerror]
  | socketClosed sk wasClean =>
    refine ⟨[], ?_⟩
    simp only [step, socketClosed, List.append_nil]
    split
    · rfl
    · rw [deviceIds_onclose]; rfl
  | timerFired handle => exact ⟨[], by simp [step, deviceIds_timerFired]⟩

theorem deviceIds_run (env : Env) (actions : List Action) (rt : Runtime) :
    ∃ rest, (run env rt actions).deviceIds = rt.deviceIds ++ rest := by
  induction actions generalizing rt with
  | nil => exact ⟨[], by simp [run]⟩
  | cons a as ih =>
    obtain ⟨r1, h1⟩ := deviceIds_step env rt a
    obtain ⟨r2, h2⟩ := ih (step env rt a)
    refine ⟨r1 ++ r2, ?_⟩
    simp only [run, List.foldl_cons] at h2 ⊢
    rw [h2, h1, List.append_assoc]

theorem getSelf_deviceId (rt : Runtime) (i : Nat) :
    (rt.getSelf i).deviceId = rt.deviceIds.getD i none := by
  unfold Runtime.getSelf Runtime.deviceIds
  by_cases h : i < rt.objects.length
  · simp [List.getD, h]
  · simp [List.getD, List.getElem?_eq_none (not_lt.mp h)]
    rfl

theorem set_getElem_same {α : Type} (l : List α) (i : Nat) (h : i < l.length) :
    l.set i (l.get ⟨i, h⟩) = l := by
  apply List.ext_getElem (by simp)
  intro n h1 h2
  by_cases hn : i = n
  · subst hn; simp
  · simp [List.getElem_set_ne hn]

theorem setSelf_getSelf_same (rt : Runtime) (this : Nat) (s : WebSocketService)
    (h : s = rt.getSelf this) : rt.setSelf this s = rt := by
  subst h
  by_cases hv : this < rt.objects.length
  · have := set_getElem_same rt.objects this hv
    simp only [List.get_eq_getElem] at this
    simp [Runtime.setSelf, Runtime.getSelf, List.getD, hv, this]
  · exact setSelf_of_le _ _ _ (not_lt.mp hv)

theorem subscribe_recorded_open (rt : Runtime) (this sk : Nat) (s : Socket) (D : String)
    (hs : rt.sockets[sk]? = some s) (hopen : s.ws.readyState = .OPEN)
    (hcur : (rt.getSelf this).socket = some sk)
    (hdev : (rt.getSelf this).deviceId = some D) :
    subscribeToDevice rt this (some D) =
      ({ rt with sockets := rt.sockets.set sk (s.appendSent (subscribeFrame D)) }, .ok ()) := by
  have hsame : rt.setSelf this { rt.getSelf this with deviceId := some D } = rt := by
    apply setSelf_getSelf_same
    rw [← hdev]
  have hisOpen : rt.isOpen this = true := by
    simp [Runtime.isOpen, hcur, hs, hopen]
  have hsend : rt.sendSocket sk (subscribeMessage (some D)) =
      .ok { rt with sockets := rt.sockets.set sk (s.appendSent (subscribeFrame D)) } := by
    simp [Runtime.sendSocket, hs, WebSocket.send, hopen, subscribeMessage, Socket.appendSent]
  simp only [] at hsame
  unfold subscribeToDevice
  simp only []
  rw [hsame]
  simp only [hisOpen, if_true, hcur, Option.getD_some, hsend]

theorem onopen_sends (rt : Runtime) (sk : Nat) (s : Socket) (D : String) (hD : D ≠ "")
    (hs : rt.sockets[sk]? = some s) (hopen : s.ws.readyState = .OPEN)
    (hcur : (rt.getSelf s.self).socket = some sk)
    (hdev : (rt.getSelf s.self).deviceId = some D) :
    (onopen rt s).2 = .ok () ∧
    (onopen rt s).1.sockets = rt.sockets.set sk (s.appendSent (subscribeFrame D)) := by
  have hsub := subscribe_recorded_open
    { rt.clearTimeout (some s.connectionTimeout) with connectionPromise := none } s.self sk s D
    hs hopen hcur hdev
  have hdev2 : (Runtime.getSelf { rt.clearTimeout (some s.connectionTimeout) with
      connectionPromise := none } s.self).deviceId = some D := hdev
  unfold onopen
  simp only [hdev2, deviceIdTruthy, bne_iff_ne, ne_eq, hD, not_false_eq_true, decide_True,
    if_true, hsub]
  exact ⟨trivial, (settle_frame _ _ _).2.1⟩

theorem onopen_silent (rt : Runtime) (s : Socket)
    (hdev : deviceIdTruthy (rt.getSelf s.self).deviceId = false) :
    (onopen rt s).2 = .ok () ∧ (onopen rt s).1.sockets = rt.sockets := by
  have hdev2 : deviceIdTruthy (Runtime.getSelf { rt.clearTimeout (some s.connectionTimeout) with
      connectionPromise := none } s.self).deviceId = false := hdev
  have h : onopen rt s =
      (Runtime.settle { rt.clearTimeout (some s.connectionTimeout) with connectionPromise := none }
        s.promise (.fulfilled (rt.getSelf s.self).socket), .ok ()) := by
    unfold onopen
    simp only [hdev2]
    rfl
  rw [h]
  exact ⟨rfl, (settle_frame _ _ _).2.1⟩

theorem subscribe_records (rt : Runtime) (this : Nat) (deviceId : Option String)
    (hthis : this < rt.objects.length) :
    ((subscribeToDevice rt this deviceId).1.getSelf this).deviceId = deviceId ∧
    (subscribeToDevice rt this deviceId).1.objects.length = rt.objects.length := by
  unfold subscribeToDevice
  simp only []
  split
  · split
    · exact ⟨by rw [getSelf_setSelf_of_lt _ _ _ hthis], by simp [Runtime.setSelf]⟩
    · rename_i rt2 h
      have ho := sendSocket_objects _ _ _ _ h
      constructor
      · have : rt2.getSelf this = (rt.setSelf this { rt.getSelf this with deviceId := deviceId }).getSelf this := by
          simp [Runtime.getSelf, ho]
        rw [this, getSelf_setSelf_of_lt _ _ _ hthis]
      · rw [ho]; simp [Runtime.setSelf]
  · exact ⟨by rw [getSelf_setSelf_of_lt _ _ _ hthis], by simp [Runtime.setSelf]⟩

theorem lt_length_of_getElem_some {α : Type} (l : List α) (i : Nat) (a : α) (h : l[i]? = some a) :
    i < l.length := by
  rcases Nat.lt_or_ge i l.length with hlt | hge
  · exact hlt
  · rw [List.getElem?_eq_none hge] at h; cases h

theorem socketOpened_sends (rt : Runtime) (this sk : Nat) (D : String) (hD : D ≠ "")
    (hcur : (rt.getSelf this).socket = some sk)
    (hown : (rt.sockets[sk]?).map (fun s => s.self) = some this)
    (hdev : (rt.getSelf this).deviceId = some D) :
    (socketOpened rt sk).2 = .ok () ∧
    ((socketOpened rt sk).1.sockets[sk]?).map (fun s => s.ws.sent) =
      (rt.sockets[sk]?).map (fun s => s.ws.sent ++ [subscribeFrame D]) ∧
    (∀ k, k ≠ sk → (socketOpened rt sk).1.sockets[k]? = rt.sockets[k]?) := by
  cases hs : rt.sockets[sk]? with
  | none => simp [hs] at hown
  | some s =>
    have hself : s.self = this := by simpa [hs] using hown
    subst hself
    have hlt : sk < rt.sockets.length := lt_length_of_getElem_some _ _ _ hs
    have hget : (rt.sockets.set sk { s with ws := { s.ws with readyState := .OPEN } })[sk]? =
        some { s with ws := { s.ws with readyState := .OPEN } } := by
      simp [hlt]
    obtain ⟨h1, h2⟩ := onopen_sends
      { rt with sockets := rt.sockets.set sk { s with ws := { s.ws with readyState := .OPEN } } }
      sk { s with ws := { s.ws with readyState := .OPEN } } D hD hget rfl hcur hdev
    have hso : socketOpened rt sk = onopen
        { rt with sockets := rt.sockets.set sk { s with ws := { s.ws with readyState := .OPEN } } }
        { s with ws := { s.ws with readyState := .OPEN } } := by
      simp only [socketOpened, hs]
    rw [hso]
    refine ⟨h1, ?_, ?_⟩
    · rw [h2]
      simp [hlt, Socket.appendSent]
    · intro k hk
      rw [h2]
      simp [List.getElem?_set_ne (Ne.symm hk)]

theorem socketOpened_silent (rt : Runtime) (sk : Nat)
    (hdev : ∀ s, rt.sockets[sk]? = some s →
      deviceIdTruthy (rt.getSelf s.self).deviceId = false) :
    (socketOpened rt sk).2 = .ok () ∧
    (socketOpened rt sk).1.sockets.map (fun s => s.ws.sent) =
      rt.sockets.map (fun s => s.ws.sent) := by
  cases hs : rt.sockets[sk]? with
  | none => simp [socketOpened, hs]
  | some s =>
    obtain ⟨h1, h2⟩ := onopen_silent
      { rt with sockets := rt.sockets.set sk { s with ws := { s.ws with readyState := .OPEN } } }
      { s with ws := { s.ws with readyState := .OPEN } } (hdev s hs)
    have hso : socketOpened rt sk = onopen
        { rt with sockets := rt.sockets.set sk { s with ws := { s.ws with readyState := .OPEN } } }
        { s with ws := { s.ws with readyState := .OPEN } } := by
      simp only [socketOpened, hs]
    rw [hso]
    refine ⟨h1, ?_⟩
    rw [h2]
    apply List.ext_getElem?
    intro n
    by_cases hn : sk = n
    · subst hn
      have hlt : sk < rt.sockets.length := lt_length_of_getElem_some _ _ _ hs
      have hs3 : rt.sockets[sk] = s := by
        have h := List.getElem?_eq_getElem hlt
        rw [h] at hs
        exact Option.some.inj hs
      simp [List.getElem?_set, hs, hlt, hs3]
    · simp [List.getElem?_set_ne hn]

/-- C5, as stated, fails for the empty device id: `subscribeToDevice("")` records
it, yet when the socket of the client then opens no frame is sent. -/
theorem resubscribe_empty_id_refuted :
    ((subscribeToDevice sampleRuntime 0 (some "")).1.getSelf 0).deviceId = some "" ∧
    ((run sampleEnv (subscribeToDevice sampleRuntime 0 (some "")).1 [.connect 0]).getSelf 0).socket
      = some 0 ∧
    (socketOpened (run sampleEnv (subscribeToDevice sampleRuntime 0 (some "")).1 [.connect 0])
      0).1.sockets.map (fun s => (s.ws.readyState, s.ws.sent)) = [(.OPEN, [])] := by
  exact ⟨rfl, rfl, rfl⟩

/-- C5, amended: `subscribeToDevice(D)` records `D` whether or not the socket is
open, and for a non-empty `D`, after any later sequence of calls and events
without another `subscribeToDevice`, the opening of the current socket of the
client sends exactly one frame, the `SUBSCRIBE` frame for `D`, on that socket
and nothing on any other; when the recorded id is `null` or empty, the opening
of a socket sends nothing. -/
theorem resubscribe_on_open (env : Env) (rt : Runtime) (this : Nat) (D : String)
    (actions : List Action) (sk : Nat) (hD : D ≠ "") (hthis : this < rt.objects.length)
    (hcur : ((run env (subscribeToDevice rt this (some D)).1 actions).getSelf this).socket
      = some sk)
    (hown : ((run env (subscribeToDevice rt this (some D)).1 actions).sockets[sk]?).map
      (fun s => s.self) = some this) :
    ((subscribeToDevice rt this (some D)).1.getSelf this).deviceId = some D ∧
    ((run env (subscribeToDevice rt this (some D)).1 actions).getSelf this).deviceId = some D ∧
    (socketOpened (run env (subscribeToDevice rt this (some D)).1 actions) sk).2 = .ok () ∧
    ((socketOpened (run env (subscribeToDevice rt this (some D)).1 actions) sk).1.sockets[sk]?).map
        (fun s => s.ws.sent) =
      ((run env (subscribeToDevice rt this (some D)).1 actions).sockets[sk]?).map
        (fun s => s.ws.sent ++ [subscribeFrame D]) ∧
    (∀ k, k ≠ sk →
      (socketOpened (run env (subscribeToDevice rt this (some D)).1 actions) sk).1.sockets[k]? =
        (run env (subscribeToDevice rt this (some D)).1 actions).sockets[k]?) ∧
    (∀ (rt0 : Runtime) (sk0 : Nat),
      (∀ s, rt0.sockets[sk0]? = some s →
        deviceIdTruthy (rt0.getSelf s.self).deviceId = false) →
      (socketOpened rt0 sk0).1.sockets.map (fun s => s.ws.sent) =
        rt0.sockets.map (fun s => s.ws.sent)) := by
  obtain ⟨hrec, hlen⟩ := subscribe_records rt this (some D) hthis
  have hkept : ((run env (subscribeToDevice rt this (some D)).1 actions).getSelf this).deviceId
      = some D := by
    obtain ⟨rest, hrest⟩ := deviceIds_run env actions (subscribeToDevice rt this (some D)).1
    have hlt : this < (subscribeToDevice rt this (some D)).1.deviceIds.length := by
      simp [Runtime.deviceIds, hlen, hthis]
    have hrec2 := hrec
    rw [getSelf_deviceId] at hrec2
    rw [getSelf_deviceId, hrest, List.getD_append _ _ _ _ hlt]
    exact hrec2
  obtain ⟨h1, h2, h3⟩ := socketOpened_sends _ this sk D hD hcur hown hkept
  exact ⟨hrec, hkept, h1, h2, h3, fun rt0 sk0 h => (socketOpened_silent rt0 sk0 h).2⟩

theorem resubscribe_on_open_witness :
    ("480D3220691C" ≠ "") ∧ 0 < sampleRuntime.objects.length ∧
    ((socketOpened (run sampleEnv (subscribeToDevice sampleRuntime 0 (some "480D3220691C")).1
        [.connect 0, .socketOpened 0, .socketClosed 0 false, .timerFired 2]) 1).1.sockets[1]?).map
        (fun s => s.ws.sent) =
      ((run sampleEnv (subscribeToDevice sampleRuntime 0 (some "480D3220691C")).1
        [.connect 0, .socketOpened 0, .socketClosed 0 false, .timerFired 2]).sockets[1]?).map
        (fun s => s.ws.sent ++ [subscribeFrame "480D3220691C"]) :=
  ⟨by decide, by decide,
   (resubscribe_on_open sampleEnv sampleRuntime 0 "480D3220691C"
      [.connect 0, .socketOpened 0, .socketClosed 0 false, .timerFired 2] 1
      (by decide) (by decide) rfl rfl).2.2.2.1⟩

theorem reason_ok : ("Normal closure".utf8ByteSize ≤ 123) := by decide

theorem close_normal (ws : WebSocket) :
    ws.close (some 1000) (some "Normal closure") =
      .ok { ws with
        readyState := match ws.readyState with
          | .CONNECTING => .CLOSING
          | .OPEN => .CLOSING
          | st => st
        closes := ws.closes ++ [(some 1000, some "Normal closure")] } := by
  simp only [WebSocket.close]
  simp [reason_ok]

theorem getSelf_eq_of_getElem_some (rt : Runtime) (this : Nat) (self : WebSocketService)
    (h : rt.objects[this]? = some self) : rt.getSelf this = self := by
  simp [Runtime.getSelf, List.getD, h]

theorem disconnect_spec (rt : Runtime) (this : Nat) :
    ∃ sockets1, disconnect rt this =
      ({ rt with
          timers := (rt.clearTimeout (rt.getSelf this).retryTimeout).timers
          objects := rt.objects.set this { rt.getSelf this with listeners := [], socket := none }
          sockets := sockets1
          instanceRef := none
          connectionPromise := none }, .ok ()) ∧
      ((rt.getSelf this).socket = none → sockets1 = rt.sockets) := by
  cases ho : rt.objects[this]? with
  | none =>
    have hg : rt.getSelf this = default := by simp [Runtime.getSelf, List.getD, ho]
    have hge : rt.objects.length ≤ this := by
      rcases Nat.lt_or_ge this rt.objects.length with h | h
      · rw [List.getElem?_eq_getElem h] at ho; cases ho
      · exact h
    refine ⟨rt.sockets, ?_, fun _ => rfl⟩
    simp [disconnect, Runtime.setSelf, Runtime.getSelf, List.getD, ho, Runtime.clearTimeout,
      List.set_eq_of_length_le hge]
  | some self =>
    have hlt : this < rt.objects.length := lt_length_of_getElem_some _ _ _ ho
    cases hs : self.socket with
    | none =>
      refine ⟨rt.sockets, ?_, fun _ => rfl⟩
      cases hr : self.retryTimeout <;>
      simp [disconnect, Runtime.setSelf, Runtime.getSelf, List.getD, ho, Runtime.clearTimeout,
        hlt, hs, hr]
    | some sk =>
      cases hk : rt.sockets[sk]? with
      | none =>
        refine ⟨rt.sockets, ?_, fun h => by simp [getSelf_eq_of_getElem_some _ _ _ ho, hs] at h⟩
        cases hr : self.retryTimeout <;>
        simp [disconnect, Runtime.setSelf, Runtime.getSelf, List.getD, ho, Runtime.clearTimeout,
          hlt, hs, hr, Runtime.closeSocket, hk]
      | some s =>
        refine ⟨rt.sockets.set sk { s with ws := { s.ws with
            readyState := match s.ws.readyState with
              | .CONNECTING => .CLOSING
              | .OPEN => .CLOSING
              | st => st
            closes := s.ws.closes ++ [(some 1000, some "Normal closure")] } }, ?_,
          fun h => by simp [getSelf_eq_of_getElem_some _ _ _ ho, hs] at h⟩
        cases hr : self.retryTimeout <;>
        simp [disconnect, Runtime.setSelf, Runtime.getSelf, List.getD, ho, Runtime.clearTimeout,
          hlt, hs, hr, Runtime.closeSocket, hk, close_normal]

theorem clearTimeout_twice (rt : Runtime) (h : Option Nat) (rt1 : Runtime)
    (ht : rt1.timers = (rt.clearTimeout h).timers) :
    (rt1.clearTimeout h).timers = (rt.clearTimeout h).timers := by
  cases h with
  | none => exact ht
  | some k =>
    simp only [Runtime.clearTimeout] at ht ⊢
    rw [ht, List.filter_filter]
    simp

theorem disconnect_twice (rt : Runtime) (this : Nat) :
    disconnect (disconnect rt this).1 this = disconnect rt this := by
  obtain ⟨sockets1, h1, -⟩ := disconnect_spec rt this
  obtain ⟨sockets2, h2, hs2⟩ := disconnect_spec (disconnect rt this).1 this
  rw [h2]
  rw [h1] at hs2 ⊢
  by_cases hv : this < rt.objects.length
  · have hg : Runtime.getSelf { rt with
          timers := (rt.clearTimeout (rt.getSelf this).retryTimeout).timers
          objects := rt.objects.set this { rt.getSelf this with listeners := [], socket := none }
          sockets := sockets1
          instanceRef := none
          connectionPromise := none } this =
        { rt.getSelf this with listeners := [], socket := none } := by
      simp [Runtime.getSelf, List.getD, hv]
    simp only [hg] at hs2 ⊢
    rw [hs2 trivial]
    simp only [Prod.mk.injEq, and_true, Runtime.mk.injEq, true_and, List.set_set]
    exact clearTimeout_twice rt _ _ rfl
  · have hge := not_lt.mp hv
    have hg : Runtime.getSelf { rt with
          timers := (rt.clearTimeout (rt.getSelf this).retryTimeout).timers
          objects := rt.objects.set this { rt.getSelf this with listeners := [], socket := none }
          sockets := sockets1
          instanceRef := none
          connectionPromise := none } this = default := by
      simp [Runtime.getSelf, List.getD, List.set_eq_of_length_le hge,
        List.getElem?_eq_none hge]
    have hd : rt.getSelf this = default := getSelf_of_le _ _ hge
    simp only [hg] at hs2 ⊢
    rw [hs2 rfl]
    simp only [hd, Prod.mk.injEq, and_true, Runtime.mk.injEq, true_and, List.set_set]
    exact clearTimeout_twice rt _ _ rfl

/-- C7: while `WebSocketService.instance` is set, `new WebSocketService(url, token)`
evaluates to the existing instance and changes nothing at all (no socket is
built and the fields of the instance, its url and token included, stay as they
were); while it is `null`, the expression yields a new object holding `url`
and `token` with no socket, no listener, no device id and no retry timer,
registers it as the instance and leaves every older object untouched. -/
theorem constructor_singleton (rt : Runtime) (url token : String) :
    (∀ existing, rt.instanceRef = some existing →
      WebSocketService.constructor rt url token = (rt, existing) ∧
      (WebSocketService.constructor rt url token).1.sockets = rt.sockets ∧
      (WebSocketService.constructor rt url token).1.wsCalls = rt.wsCalls ∧
      (WebSocketService.constructor rt url token).1.getSelf existing = rt.getSelf existing) ∧
    (rt.instanceRef = none →
      (WebSocketService.constructor rt url token).2 = rt.objects.length ∧
      (WebSocketService.constructor rt url token).1.instanceRef = some rt.objects.length ∧
      (WebSocketService.constructor rt url token).1.getSelf rt.objects.length =
        { url := url, token := token, socket := none, listeners := [], deviceId := none,
          retryTimeout := none } ∧
      (∀ i, i < rt.objects.length →
        (WebSocketService.constructor rt url token).1.getSelf i = rt.getSelf i) ∧
      (WebSocketService.constructor rt url token).1.sockets = rt.sockets ∧
      (WebSocketService.constructor rt url token).1.wsCalls = rt.wsCalls ∧
      (WebSocketService.constructor rt url token).1.timers = rt.timers) := by
  constructor
  · intro existing h
    have : WebSocketService.constructor rt url token = (rt, existing) := by
      simp [WebSocketService.constructor, h]
    rw [this]
    exact ⟨rfl, rfl, rfl, rfl⟩
  · intro h
    have hc : WebSocketService.constructor rt url token =
        ({ rt with
            objects := rt.objects ++ [{ url := url, token := token, socket := none,
                                        listeners := [], deviceId := none, retryTimeout := none }]
            instanceRef := some rt.objects.length },
         rt.objects.length) := by
      simp [WebSocketService.constructor, h]
    rw [hc]
    refine ⟨rfl, rfl, ?_, ?_, rfl, rfl, rfl⟩
    · simp [Runtime.getSelf, List.getD]
    · intro i hi
      simp [Runtime.getSelf, List.getD, List.getElem?_append_left hi]

theorem constructor_singleton_witness :
    sampleRuntime.instanceRef = some 0 ∧
    WebSocketService.constructor sampleRuntime "ws://elsewhere/ws" "xyz" = (sampleRuntime, 0) ∧
    Runtime.initial.instanceRef = none ∧
    (WebSocketService.constructor Runtime.initial "ws://host/ws/frontend" "abc").1.instanceRef
      = some 0 :=
  ⟨rfl,
   ((constructor_singleton sampleRuntime "ws://elsewhere/ws" "xyz").1 0 rfl).1,
   rfl,
   ((constructor_singleton Runtime.initial "ws://host/ws/frontend" "abc").2 rfl).2.1⟩

/-- C8 does not hold of the code: after `connect()` on the sample client,
`disconnect()` drops the socket handle but leaves the 5000 ms connection
timeout of line 43 scheduled; if `connect()` is called again and that stale
timer then fires, it closes the socket of the new attempt. -/
theorem disconnect_keeps_connection_timeout :
    pendingRuntime.timers = [{ id := 1, delay := 5000, callback := .connectionTimeout 0 0 }] ∧
    (disconnect pendingRuntime 0).2 = .ok () ∧
    ((disconnect pendingRuntime 0).1.getSelf 0).socket = none ∧
    (disconnect pendingRuntime 0).1.timers =
      [{ id := 1, delay := 5000, callback := .connectionTimeout 0 0 }] ∧
    (run sampleEnv sampleRuntime [.connect 0, .disconnect 0, .connect 0, .timerFired 1]).sockets.map
      (fun s => (s.ws.readyState, s.ws.closes)) =
      [(.CLOSING, [(some 1000, some "Normal closure")]), (.CLOSING, [(none, none)])] := by
  exact ⟨rfl, rfl, rfl, rfl, rfl⟩

/-- C9: in every state `disconnect()` returns normally, a second `disconnect()`
changes nothing more and returns the same, and afterwards the client has no
socket, no listener, no in-flight attempt and no pending timer under its retry
handle; on a client that never connected (no socket, no retry handle) the
handle stays `null` and the sockets and timers of the page are untouched. -/
theorem disconnect_idempotent (rt : Runtime) (this : Nat) :
    (disconnect rt this).2 = .ok () ∧
    disconnect (disconnect rt this).1 this = disconnect rt this ∧
    ((disconnect rt this).1.getSelf this).socket = none ∧
    ((disconnect rt this).1.getSelf this).listeners = [] ∧
    (disconnect rt this).1.connectionPromise = none ∧
    (∀ t, t ∈ (disconnect rt this).1.timers → some t.id ≠ (rt.getSelf this).retryTimeout) ∧
    ((rt.getSelf this).socket = none → (rt.getSelf this).retryTimeout = none →
      ((disconnect rt this).1.getSelf this).retryTimeout = none ∧
      (disconnect rt this).1.timers = rt.timers ∧
      (disconnect rt this).1.sockets = rt.sockets) := by
  obtain ⟨sockets1, h1, hs1⟩ := disconnect_spec rt this
  have hself : (disconnect rt this).1.getSelf this =
      { rt.getSelf this with listeners := [], socket := none } := by
    rw [h1]
    by_cases hv : this < rt.objects.length
    · simp [Runtime.getSelf, List.getD, hv]
    · have hge := not_lt.mp hv
      simp [Runtime.getSelf, List.getD, List.set_eq_of_length_le hge, List.getElem?_eq_none hge]
      rfl
  refine ⟨by rw [h1], disconnect_twice rt this, by rw [hself], by rw [hself], by rw [h1], ?_, ?_⟩
  · intro t ht
    rw [h1] at ht
    cases hr : (rt.getSelf this).retryTimeout with
    | none => simp
    | some k =>
      simp only [hr, Runtime.clearTimeout, List.mem_filter] at ht
      intro heq
      have : t.id = k := Option.some.inj heq
      simp [this] at ht
  · intro hsock hretry
    refine ⟨by rw [hself]; exact hretry, ?_, ?_⟩
    · rw [h1]; simp [hretry, Runtime.clearTimeout]
    · rw [h1]; exact hs1 hsock

theorem disconnect_idempotent_witness :
    (sampleRuntime.getSelf 0).socket = none ∧ (sampleRuntime.getSelf 0).retryTimeout = none ∧
    disconnect (disconnect pendingRuntime 0).1 0 = disconnect pendingRuntime 0 ∧
    (disconnect sampleRuntime 0).1.timers = sampleRuntime.timers :=
  ⟨rfl, rfl, (disconnect_idempotent pendingRuntime 0).2.1,
   ((disconnect_idempotent sampleRuntime 0).2.2.2.2.2.2 rfl rfl).2.1⟩

end EspMonitor

namespace ConnetSocket
open JS

/-- C10, as stated, fails: after `connect` and five failed attempts the counter
is 5, and an abnormal close (code 1006) then schedules no retry timer. -/
theorem unbounded_retry_refuted :
    abnormalClose.code ≠ 1000 ∧ abnormalClose.code ≠ 4001 ∧
    exhaustedRuntime.self.reconnectAttempts = 5 ∧
    exhaustedRuntime.self.maxReconnectAttempts = 5 ∧
    (handleClose exhaustedRuntime abnormalClose).timers = exhaustedRuntime.timers ∧
    (handleClose exhaustedRuntime abnormalClose).timers.length ≠
      exhaustedRuntime.timers.length + 1 := by
  refine ⟨by decide, by decide, rfl, rfl, rfl, by decide⟩

/-- C10, amended: for an unclean close (code other than 1000 and 4001),
`handleClose` schedules exactly one retry timer while `reconnectAttempts` is
below `maxReconnectAttempts`, which the constructor sets to 5, and schedules
none once the counter has reached it. -/
theorem retry_until_max_attempts (rt : Runtime) (event : CloseEvent)
    (h4001 : event.code ≠ 4001) (h1000 : event.code ≠ 1000) :
    (rt.self.reconnectAttempts < rt.self.maxReconnectAttempts →
      (handleClose rt event).timers =
        rt.timers ++ [{ id := rt.nextTimer, delay := retryDelay rt.self.reconnectAttempts }] ∧
      (handleClose rt event).self.reconnectTimeout = some rt.nextTimer) ∧
    (rt.self.maxReconnectAttempts ≤ rt.self.reconnectAttempts →
      (handleClose rt event).timers = rt.timers) ∧
    WebSocketService.constructor.maxReconnectAttempts = 5 := by
  refine ⟨fun hlt => ?_, fun hge => ?_, rfl⟩
  · rw [handleClose_scheduled rt event h4001 h1000 hlt]
    exact ⟨rfl, rfl⟩
  · rw [handleClose_not_scheduled rt event (Or.inr (Or.inr hge))]

theorem retry_until_max_attempts_witness :
    abnormalClose.code ≠ 4001 ∧ abnormalClose.code ≠ 1000 ∧
    (handleClose Runtime.initial abnormalClose).timers =
      [] ++ [{ id := 1, delay := retryDelay 0 }] ∧
    (handleClose exhaustedRuntime abnormalClose).timers = exhaustedRuntime.timers :=
  ⟨by decide, by decide,
   ((retry_until_max_attempts Runtime.initial abnormalClose (by decide) (by decide)).1
      (by decide)).1,
   (retry_until_max_attempts exhaustedRuntime abnormalClose (by decide) (by decide)).2.1
      (by decide)⟩

end ConnetSocket

namespace ConnetSocket
open JS

theorem forEachDataCallback_frame (env : Env) (payload : Option Json) (cbs : List Nat)
    (rt : Runtime) :
    (forEachDataCallback env payload cbs rt).1.self = rt.self ∧
    (forEachDataCallback env payload cbs rt).1.nextTimer = rt.nextTimer ∧
    (forEachDataCallback env payload cbs rt).1.timers = rt.timers ∧
    (forEachDataCallback env payload cbs rt).1.sockets = rt.sockets ∧
    (forEachDataCallback env payload cbs rt).1.animationFrames = rt.animationFrames := by
  induction cbs generalizing rt with
  | nil => exact ⟨rfl, rfl, rfl, rfl, rfl⟩
  | cons c cs ih =>
    simp only [forEachDataCallback]
    split
    · exact ⟨rfl, rfl, rfl, rfl, rfl⟩
    · exact ih _

theorem forEachDataCallback_all (env : Env) (payload : Option Json) (cbs : List Nat)
    (rt : Runtime) (hquiet : ∀ c, c ∈ cbs → env.listenerThrows c payload = false) :
    forEachDataCallback env payload cbs rt =
      ({ rt with calls := rt.calls ++ cbs.map (fun c => (c, payload)) }, .ok ()) := by
  induction cbs generalizing rt with
  | nil => simp [forEachDataCallback]
  | cons c cs ih =>
    have hc : env.listenerThrows c payload = false := hquiet c (List.mem_cons_self _ _)
    simp only [forEachDataCallback, hc]
    rw [ih _ (fun d hd => hquiet d (List.mem_cons_of_mem _ hd))]
    simp

theorem settled_initial : Runtime.initial.Settled := by
  refine ⟨rfl, rfl, by decide, ?_⟩
  intro h hh
  cases hh

theorem settled_connect (env : Env) (rt : Runtime) (token : Option String)
    (h : rt.Settled) : (connect env rt token).Settled := by
  unfold connect
  split
  · exact h
  · simp only []
    split <;> exact h

theorem settled_onopen (rt : Runtime) (h : rt.Settled) : (onopen rt).Settled := by
  obtain ⟨h1, h2, h3, h4⟩ := h
  unfold onopen
  simp only []
  split
  · refine ⟨h1, h2, h3, ?_⟩
    intro k hk
    cases hk
  · exact ⟨h1, h2, h3, h4⟩

theorem settled_handleClose (rt : Runtime) (event : CloseEvent) (h : rt.Settled) :
    (handleClose rt event).Settled := by
  obtain ⟨h1, h2, h3, h4⟩ := h
  unfold handleClose
  simp only []
  split
  · exact ⟨h1, h2, h3, h4⟩
  · split
    · exact ⟨h1, h2, h3, h4⟩
    · split
      · refine ⟨h1, h2, Nat.le_succ_of_le h3, ?_⟩
        intro k hk
        have : rt.nextTimer = k := Option.some.inj hk
        omega
      · exact ⟨h1, h2, h3, h4⟩

theorem settled_handleMessage (rt : Runtime) (message : Json) (h : rt.Settled) :
    (handleMessage rt message).Settled := by
  unfold handleMessage
  split
  · exact h
  · repeat' split
    all_goals exact h

theorem settled_onmessage (env : Env) (event : MessageEvent) (now : Int) (rt : Runtime)
    (h : rt.Settled) : (onmessage env event now rt).Settled := by
  unfold onmessage throttleMessages messageCallback
  simp only []
  split
  · split
    · exact h
    · exact settled_handleMessage _ _ h
  · exact h

theorem settled_subscribeToDevice (rt : Runtime) (deviceId : Option String) (h : rt.Settled) :
    (subscribeToDevice rt deviceId).1.Settled := by
  unfold subscribeToDevice
  repeat' split
  all_goals exact h

theorem settled_of_fields (rt rt1 : Runtime) (h : rt.Settled)
    (e1 : rt1.self.maxReconnectAttempts = rt.self.maxReconnectAttempts)
    (e2 : rt1.self.messageThreshold = rt.self.messageThreshold)
    (e3 : rt.nextTimer ≤ rt1.nextTimer)
    (e4 : rt1.self.reconnectTimeout = rt.self.reconnectTimeout ∨
      rt1.self.reconnectTimeout = none) : rt1.Settled := by
  obtain ⟨h1, h2, h3, h4⟩ := h
  refine ⟨by rw [e1, h1], by rw [e2, h2], le_trans h3 e3, ?_⟩
  intro k hk
  rcases e4 with e | e
  · exact h4 k (by rw [← e, hk])
  · rw [e] at hk; cases hk

theorem settled_disconnect (rt : Runtime) (h : rt.Settled) : (disconnect rt).1.Settled := by
  have hrt1 : Runtime.Settled (if handleTruthy rt.self.reconnectTimeout then
      { rt.clearTimeout (rt.self.reconnectTimeout.getD 0) with
        self := { (rt.clearTimeout (rt.self.reconnectTimeout.getD 0)).self with
          reconnectTimeout := none } }
    else rt) := by
    split
    · exact settled_of_fields rt _ h rfl rfl (le_refl _) (Or.inr rfl)
    · exact h
  unfold disconnect
  simp only []
  generalize (if handleTruthy rt.self.reconnectTimeout then
      { rt.clearTimeout (rt.self.reconnectTimeout.getD 0) with
        self := { (rt.clearTimeout (rt.self.reconnectTimeout.getD 0)).self with
          reconnectTimeout := none } }
    else rt) = rt1 at hrt1 ⊢
  split
  · exact hrt1
  · rename_i rt2 heq
    have h2 : rt2.Settled := by
      split at heq
      · cases heq; exact hrt1
      · split at heq
        · cases heq
          exact settled_of_fields rt1 _ hrt1 rfl rfl (le_refl _) (Or.inl rfl)
        · split at heq
          · cases heq
          · cases heq
            exact settled_of_fields rt1 _ hrt1 rfl rfl (le_refl _) (Or.inl rfl)
    exact settled_of_fields rt2 _ h2 rfl rfl (le_refl _) (Or.inl rfl)

theorem settled_reconnectCallback (env : Env) (rt : Runtime) (handle : Nat) (h : rt.Settled) :
    (reconnectCallback env rt handle).Settled := by
  have h1 : (rt.clearTimeout handle).Settled :=
    settled_of_fields rt _ h rfl rfl (le_refl _) (Or.inl rfl)
  unfold reconnectCallback
  simp only []
  split
  · exact settled_connect env _ _
      (settled_of_fields _ _ h1 rfl rfl (le_refl _) (Or.inl rfl))
  · exact h1

theorem settled_animationFrameFired (env : Env) (rt : Runtime) (h : rt.Settled) :
    (animationFrameFired env rt).1.Settled := by
  cases hq : rt.animationFrames with
  | nil =>
    simp only [animationFrameFired, hq]
    exact h
  | cons frame rest =>
    cases frame with
    | forEachCallback payload =>
      simp only [animationFrameFired, hq]
      obtain ⟨f1, f2, -, -, -⟩ := forEachDataCallback_frame env payload
        rt.self.onDataCallbacks { rt with animationFrames := rest }
      exact settled_of_fields rt _ h (by rw [f1]) (by rw [f1]) (by rw [f2]) (Or.inl (by rw [f1]))
    | updateInitialState state =>
      simp only [animationFrameFired, hq, updateInitialState]
      obtain ⟨f1, f2, -, -, -⟩ := forEachDataCallback_frame env state
        rt.self.onDataCallbacks { rt with animationFrames := rest }
      exact settled_of_fields rt _ h (by rw [f1]) (by rw [f1]) (by rw [f2]) (Or.inl (by rw [f1]))

theorem settled_step (env : Env) (rt : Runtime) (a : Action) (h : rt.Settled) :
    (step env rt a).Settled := by
  cases a with
  | connect token => exact settled_connect env rt token h
  | subscribeToData callback =>
    simp only [step, subscribeToData]
    split
    · exact h
    · exact settled_of_fields rt _ h rfl rfl (le_refl _) (Or.inl rfl)
  | unsubscribe callback => exact settled_of_fields rt _ h rfl rfl (le_refl _) (Or.inl rfl)
  | subscribeToDevice deviceId => exact settled_subscribeToDevice rt deviceId h
  | disconnect => exact settled_disconnect rt h
  | socketOpened sk =>
    exact settled_onopen _ (settled_of_fields rt _ h rfl rfl (le_refl _) (Or.inl rfl))
  | socketMessage event now => exact settled_onmessage env event now rt h
  | socketErrored => exact settled_of_fields rt _ h rfl rfl (le_refl _) (Or.inl rfl)
  | socketClosed sk event =>
    exact settled_handleClose _ event (settled_of_fields rt _ h rfl rfl (le_refl _) (Or.inl rfl))
  | timerFired handle =>
    simp only [step]
    split
    · exact settled_reconnectCallback env rt handle h
    · exact h
  | animationFrameFired => exact settled_animationFrameFired env rt h

theorem settled_run (env : Env) (actions : List Action) (rt : Runtime) (h : rt.Settled) :
    (run env rt actions).Settled := by
  induction actions generalizing rt with
  | nil => exact h
  | cons a rest ih => exact ih _ (settled_step env rt a h)

end ConnetSocket

namespace EspMonitor
open JS

/-- C11, as stated, fails: after `subscribeToDevice` and `disconnect()` the
device id is still recorded, and when the client connects again the opening of
its socket sends the `SUBSCRIBE` frame although `subscribeToDevice` was not
called again. -/
theorem disconnect_clears_device_id_refuted :
    ((disconnect (subscribeToDevice sampleRuntime 0 (some "480D3220691C")).1 0).1.getSelf
      0).deviceId = some "480D3220691C" ∧
    (socketOpened
      (run sampleEnv (subscribeToDevice sampleRuntime 0 (some "480D3220691C")).1
        [.disconnect 0, .connect 0]) 0).1.sockets.map (fun s => (s.ws.readyState, s.ws.sent)) =
      [(.OPEN, [subscribeFrame "480D3220691C"])] := by
  exact ⟨rfl, rfl⟩

/-- C11, amended: `disconnect()` leaves the recorded device id of the client as
it was, so for a recorded non-empty id a later opening of the current socket of
that client, after any calls and events without `subscribeToDevice`, sends the
`SUBSCRIBE` frame again; only an object constructed after `disconnect()`, which
has reset `WebSocketService.instance`, starts with `deviceId` `null`. -/
theorem disconnect_keeps_device_id (env : Env) (rt : Runtime) (this : Nat) (D : String)
    (actions : List Action) (sk : Nat) (hD : D ≠ "")
    (hdev : (rt.getSelf this).deviceId = some D)
    (hcur : ((run env (disconnect rt this).1 actions).getSelf this).socket = some sk)
    (hown : ((run env (disconnect rt this).1 actions).sockets[sk]?).map (fun s => s.self)
      = some this) :
    (∀ (rt0 : Runtime) (i : Nat),
      ((disconnect rt0 i).1.getSelf i).deviceId = (rt0.getSelf i).deviceId) ∧
    ((run env (disconnect rt this).1 actions).getSelf this).deviceId = some D ∧
    ((socketOpened (run env (disconnect rt this).1 actions) sk).1.sockets[sk]?).map
        (fun s => s.ws.sent) =
      ((run env (disconnect rt this).1 actions).sockets[sk]?).map
        (fun s => s.ws.sent ++ [subscribeFrame D]) ∧
    (∀ url token,
      (WebSocketService.constructor (disconnect rt this).1 url token).2
        = (disconnect rt this).1.objects.length ∧
      ((WebSocketService.constructor (disconnect rt this).1 url token).1.getSelf
        (disconnect rt this).1.objects.length).deviceId = none) := by
  have hkeep : ∀ (rt0 : Runtime) (i : Nat),
      ((disconnect rt0 i).1.getSelf i).deviceId = (rt0.getSelf i).deviceId := by
    intro rt0 i
    rw [getSelf_deviceId, getSelf_deviceId, deviceIds_disconnect]
  have hvalid : this < rt.deviceIds.length := by
    rcases Nat.lt_or_ge this rt.objects.length with hlt | hge
    · simpa [Runtime.deviceIds] using hlt
    · rw [getSelf_of_le _ _ hge] at hdev
      cases hdev
  have hkept : ((run env (disconnect rt this).1 actions).getSelf this).deviceId = some D := by
    obtain ⟨rest, hrest⟩ := deviceIds_run env actions (disconnect rt this).1
    rw [getSelf_deviceId, hrest, deviceIds_disconnect, List.getD_append _ _ _ _ hvalid,
      ← getSelf_deviceId]
    exact hdev
  obtain ⟨-, h2, -⟩ := socketOpened_sends _ this sk D hD hcur hown hkept
  refine ⟨hkeep, hkept, h2, ?_⟩
  intro url token
  obtain ⟨sockets1, hspec, -⟩ := disconnect_spec rt this
  have hinst : (disconnect rt this).1.instanceRef = none := by rw [hspec]
  have hc : WebSocketService.constructor (disconnect rt this).1 url token =
      ({ (disconnect rt this).1 with
          objects := (disconnect rt this).1.objects ++
            [{ url := url, token := token, socket := none, listeners := [], deviceId := none,
               retryTimeout := none }]
          instanceRef := some (disconnect rt this).1.objects.length },
       (disconnect rt this).1.objects.length) := by
    simp [WebSocketService.constructor, hinst]
  rw [hc]
  refine ⟨rfl, ?_⟩
  simp [Runtime.getSelf, List.getD]

theorem disconnect_keeps_device_id_witness :
    ("480D3220691C" ≠ "") ∧
    ((subscribeToDevice sampleRuntime 0 (some "480D3220691C")).1.getSelf 0).deviceId
      = some "480D3220691C" ∧
    ((run sampleEnv (disconnect (subscribeToDevice sampleRuntime 0 (some "480D3220691C")).1 0).1
        [.connect 0]).getSelf 0).deviceId = some "480D3220691C" :=
  ⟨by decide, rfl,
   (disconnect_keeps_device_id sampleEnv
      (subscribeToDevice sampleRuntime 0 (some "480D3220691C")).1 0 "480D3220691C"
      [.connect 0] 0 (by decide) rfl rfl rfl).2.1⟩

end EspMonitor

namespace ConnetSocket
open JS

theorem handleMessage_subscription (rt : Runtime) (message : Json)
    (htype : messageType message = some "SUBSCRIPTION_SUCCESS")
    (hstate : Json.truthy (message.get "current_state") = true) :
    handleMessage rt message =
      rt.requestAnimationFrame (.forEachCallback (message.get "current_state")) := by
  cases message <;> simp_all [handleMessage, messageType, Json.get]

theorem handleMessage_initial (rt : Runtime) (message : Json)
    (htype : messageType message = some "INITIAL_STATE")
    (hdata : Json.truthy (message.get "data") = true) :
    handleMessage rt message =
      rt.requestAnimationFrame (.updateInitialState (message.get "data")) := by
  cases message <;> simp_all [handleMessage, messageType, Json.get]

/-- C12, as stated, fails: a `SUBSCRIPTION_SUCCESS` frame with a state snapshot
and an `INITIAL_STATE` frame with data, each arriving 10 ms after an admitted
telemetry frame, are dropped by the throttle: the state does not change, no
animation frame is queued for them and the registered callback only ever
receives the telemetry payload. -/
theorem throttle_bypass_refuted :
    mixedEnv.parse "subscribed" = some subscriptionSuccess ∧
    messageType subscriptionSuccess = some "SUBSCRIPTION_SUCCESS" ∧
    messageType initialState = some "INITIAL_STATE" ∧
    (onmessage mixedEnv ⟨"telemetry"⟩ 1000 watchedRuntime).animationFrames =
      [.forEachCallback (some (.obj [("temperature", .num 21)]))] ∧
    (onmessage mixedEnv ⟨"subscribed"⟩ 1010
        (onmessage mixedEnv ⟨"telemetry"⟩ 1000 watchedRuntime)).animationFrames =
      [.forEachCallback (some (.obj [("temperature", .num 21)]))] ∧
    (onmessage mixedEnv ⟨"initial"⟩ 1010
        (onmessage mixedEnv ⟨"telemetry"⟩ 1000 watchedRuntime)).animationFrames =
      [.forEachCallback (some (.obj [("temperature", .num 21)]))] ∧
    (run mixedEnv watchedRuntime
        [.socketMessage ⟨"telemetry"⟩ 1000, .socketMessage ⟨"subscribed"⟩ 1010,
         .animationFrameFired, .animationFrameFired]).calls =
      [(7, some (.obj [("temperature", .num 21)]))] := by
  exact ⟨rfl, rfl, rfl, rfl, rfl, rfl, rfl⟩

/-- C12, amended: every inbound frame passes the throttle, whatever its type.  A
`SUBSCRIPTION_SUCCESS` frame with a truthy `current_state`, or an
`INITIAL_STATE` frame with truthy `data`, that arrives more than 100 ms after
the last admitted frame has its payload queued with `requestAnimationFrame`,
and when that animation frame runs every registered callback, none of them
throwing, is called once with the payload; the same frame arriving within
100 ms of the last admitted frame changes nothing. -/
theorem throttle_applies_to_every_frame (env : Env) (rt : Runtime) (event : MessageEvent)
    (now : Int) (message : Json) (h100 : rt.self.messageThreshold = 100)
    (hparse : env.parse event.data = some message) :
    (¬ now - rt.self.lastMessageTimestamp > 100 → onmessage env event now rt = rt) ∧
    (now - rt.self.lastMessageTimestamp > 100 →
      (messageType message = some "SUBSCRIPTION_SUCCESS" →
        Json.truthy (message.get "current_state") = true →
        onmessage env event now rt =
          { rt with
            self := { rt.self with lastMessageTimestamp := now }
            animationFrames :=
              rt.animationFrames ++ [.forEachCallback (message.get "current_state")] }) ∧
      (messageType message = some "INITIAL_STATE" →
        Json.truthy (message.get "data") = true →
        onmessage env event now rt =
          { rt with
            self := { rt.self with lastMessageTimestamp := now }
            animationFrames :=
              rt.animationFrames ++ [.updateInitialState (message.get "data")] })) ∧
    (∀ (rt0 : Runtime) (payload : Option Json) (rest : List AnimationFrame),
      (∀ c, c ∈ rt0.self.onDataCallbacks → env.listenerThrows c payload = false) →
      (rt0.animationFrames = .forEachCallback payload :: rest ∨
        rt0.animationFrames = .updateInitialState payload :: rest) →
      animationFrameFired env rt0 =
        ({ rt0 with
            animationFrames := rest
            calls := rt0.calls ++ rt0.self.onDataCallbacks.map (fun c => (c, payload)) },
         .ok ())) := by
  refine ⟨?_, ?_, ?_⟩
  · intro h
    exact onmessage_dropped env event now rt (by rw [h100]; exact h)
  · intro h
    constructor
    · intro htype hstate
      simp [onmessage, throttleMessages, h100, h, messageCallback, hparse,
        handleMessage_subscription _ _ htype hstate, Runtime.requestAnimationFrame]
    · intro htype hdata
      simp [onmessage, throttleMessages, h100, h, messageCallback, hparse,
        handleMessage_initial _ _ htype hdata, Runtime.requestAnimationFrame]
  · intro rt0 payload rest hquiet hq
    rcases hq with hq | hq
    · simp only [animationFrameFired, hq]
      rw [forEachDataCallback_all env payload _ _ hquiet]
    · simp only [animationFrameFired, hq, updateInitialState]
      rw [forEachDataCallback_all env payload _ _ hquiet]

theorem throttle_applies_to_every_frame_witness :
    watchedRuntime.self.messageThreshold = 100 ∧
    mixedEnv.parse "subscribed" = some subscriptionSuccess ∧
    onmessage mixedEnv ⟨"subscribed"⟩ 1000 watchedRuntime =
      { watchedRuntime with
        self := { watchedRuntime.self with lastMessageTimestamp := 1000 }
        animationFrames :=
          watchedRuntime.animationFrames ++
            [.forEachCallback (subscriptionSuccess.get "current_state")] } ∧
    (run mixedEnv watchedRuntime
        [.socketMessage ⟨"subscribed"⟩ 1000, .animationFrameFired]).calls =
      [(7, some (.obj [("temperature", .num 20)]))] :=
  ⟨rfl, rfl,
   ((throttle_applies_to_every_frame mixedEnv watchedRuntime ⟨"subscribed"⟩ 1000
      subscriptionSuccess rfl rfl).2.1 (by decide)).1 rfl rfl,
   rfl⟩

end ConnetSocket

namespace EspMonitor
open JS

theorem sendSocket_connectionPromise (rt rt1 : Runtime) (sk : Nat) (data : Json)
    (h : rt.sendSocket sk data = .ok rt1) : rt1.connectionPromise = rt.connectionPromise := by
  unfold Runtime.sendSocket at h
  split at h
  · cases h; rfl
  · split at h
    · cases h
    · cases h; rfl

theorem subscribeToDevice_connectionPromise (rt : Runtime) (this : Nat)
    (deviceId : Option String) :
    (subscribeToDevice rt this deviceId).1.connectionPromise = rt.connectionPromise := by
  unfold subscribeToDevice
  simp only []
  split
  · split
    · rfl
    · rename_i rt2 h
      rw [sendSocket_connectionPromise _ _ _ _ h]
      rfl
  · rfl

theorem onopen_connectionPromise (rt : Runtime) (s : Socket) :
    (onopen rt s).1.connectionPromise = none := by
  have hsub := subscribeToDevice_connectionPromise
    { rt.clearTimeout (some s.connectionTimeout) with connectionPromise := none } s.self
    (Runtime.getSelf { rt.clearTimeout (some s.connectionTimeout) with
      connectionPromise := none } s.self).deviceId
  unfold onopen
  simp only []
  split
  · rename_i rt3 e h
    split at h
    · rw [h] at hsub; exact hsub
    · cases h
  · rename_i rt3 u h
    rw [(settle_frame _ _ _).2.2.2.2.1]
    split at h
    · rw [h] at hsub; exact hsub
    · cases h; rfl

theorem clearTimeout_connectionPromise (rt : Runtime) (h : Option Nat) :
    (rt.clearTimeout h).connectionPromise = rt.connectionPromise := by
  cases h <;> rfl

theorem onclose_connectionPromise (rt : Runtime) (s : Socket) (wasClean : Bool) :
    (onclose rt s wasClean).connectionPromise = none := by
  unfold onclose
  cases wasClean
  · show (Runtime.clearTimeout _ _).connectionPromise = none
    rw [clearTimeout_connectionPromise]
    rfl
  · rfl

theorem onerror_connectionPromise (rt : Runtime) (s : Socket) :
    (onerror rt s).connectionPromise = none := by
  unfold onerror
  simp only []
  rw [(settle_frame _ _ _).2.2.2.2.1]

/-- C13 does not hold of the code on two of the five paths.  `onopen`, `onerror`
and `onclose` always leave `connectionPromise` `null`.  When `new WebSocket`
throws, the `catch` of line 92 clears the marker inside the executor, but the
assignment of line 33 then stores the rejected promise: no socket and no timer
exists to clear it and every later `connect()` returns that rejected promise.
When the connection timeout fires with the socket not open, the handler
rejects the promise and leaves the marker set. -/
theorem marker_survives_failed_attempt :
    (∀ (rt : Runtime) (s : Socket), (onopen rt s).1.connectionPromise = none) ∧
    (∀ (rt : Runtime) (s : Socket), (onerror rt s).connectionPromise = none) ∧
    (∀ (rt : Runtime) (s : Socket) (wasClean : Bool),
      (onclose rt s wasClean).connectionPromise = none) ∧
    (connect rejectingEnv sampleRuntime 0).1.connectionPromise = some 0 ∧
    (connect rejectingEnv sampleRuntime 0).1.promises = [.rejected .SyntaxError] ∧
    (connect rejectingEnv sampleRuntime 0).1.sockets.length = 0 ∧
    (connect rejectingEnv sampleRuntime 0).1.timers = [] ∧
    connect rejectingEnv (connect rejectingEnv sampleRuntime 0).1 0 =
      ((connect rejectingEnv sampleRuntime 0).1, .promise 0) ∧
    pendingRuntime.isOpen 0 = false ∧
    (timerFired sampleEnv pendingRuntime 1).connectionPromise = some 0 ∧
    (timerFired sampleEnv pendingRuntime 1).promises =
      [.rejected (.Error "Connection timeout")] := by
  exact ⟨onopen_connectionPromise, onerror_connectionPromise, onclose_connectionPromise,
    rfl, rfl, rfl, rfl, rfl, rfl, rfl, rfl⟩

end EspMonitor

namespace EspMonitor
open JS

theorem removeListener_listeners (rt : Runtime) (this c : Nat) (hthis : this < rt.objects.length) :
    ((removeListener rt this c).getSelf this).listeners =
      (rt.getSelf this).listeners.filter (fun d => d != c) := by
  unfold removeListener
  rw [getSelf_setSelf_of_lt _ _ _ hthis]

theorem addListener_listeners (rt : Runtime) (this c : Nat) (hthis : this < rt.objects.length) :
    ((addListener rt this (some c)).1.getSelf this).listeners =
      (if c ∈ (rt.getSelf this).listeners then (rt.getSelf this).listeners
       else (rt.getSelf this).listeners ++ [c]) := by
  simp only [addListener]
  rw [getSelf_setSelf_of_lt _ _ _ hthis]

theorem addListener_objects_length (rt : Runtime) (this : Nat) (callback : Option Nat) :
    (addListener rt this callback).1.objects.length = rt.objects.length := by
  cases callback <;> simp [addListener, Runtime.setSelf]

/-- C14: for every function `callback`, `addListener` returns the closure that
removes that callback; afterwards the callback is registered exactly once, the
registry being unchanged when it was registered already and every other
listener staying in place; calling the returned closure, right away or at any
later time, removes exactly that callback and keeps every other listener, in
order.  A value that is not a function is not registered. -/
theorem listener_round_trip (rt : Runtime) (this c : Nat) (hthis : this < rt.objects.length)
    (hset : (rt.getSelf this).listeners.Nodup) :
    (addListener rt this (some c)).2 = some c ∧
    ((addListener rt this (some c)).1.getSelf this).listeners.count c = 1 ∧
    ((addListener rt this (some c)).1.getSelf this).listeners.Nodup ∧
    (c ∈ (rt.getSelf this).listeners → (addListener rt this (some c)).1 = rt) ∧
    (∀ d, d ≠ c → (d ∈ ((addListener rt this (some c)).1.getSelf this).listeners ↔
      d ∈ (rt.getSelf this).listeners)) ∧
    ((unsubscribe (addListener rt this (some c)).1 this c).getSelf this).listeners =
      (rt.getSelf this).listeners.filter (fun d => d != c) ∧
    c ∉ ((unsubscribe (addListener rt this (some c)).1 this c).getSelf this).listeners ∧
    (∀ (rt0 : Runtime), this < rt0.objects.length →
      ((unsubscribe rt0 this c).getSelf this).listeners =
        (rt0.getSelf this).listeners.filter (fun d => d != c) ∧
      (∀ d, d ≠ c → (d ∈ ((unsubscribe rt0 this c).getSelf this).listeners ↔
        d ∈ (rt0.getSelf this).listeners))) ∧
    addListener rt this none = (rt, none) := by
  have hadd := addListener_listeners rt this c hthis
  have hlen : this < (addListener rt this (some c)).1.objects.length := by
    rw [addListener_objects_length]; exact hthis
  have hrem := removeListener_listeners (addListener rt this (some c)).1 this c hlen
  have hnodup : ((addListener rt this (some c)).1.getSelf this).listeners.Nodup := by
    rw [hadd]
    split
    · exact hset
    · rename_i hc
      exact List.Nodup.append hset (List.nodup_singleton c) (by simpa using hc)
  have hmem : c ∈ ((addListener rt this (some c)).1.getSelf this).listeners := by
    rw [hadd]
    split
    · assumption
    · simp
  refine ⟨rfl, List.count_eq_one_of_mem hnodup hmem, hnodup, ?_, ?_, ?_, ?_, ?_, rfl⟩
  · intro hc
    simp only [addListener, hc, if_true]
    exact setSelf_getSelf_same rt this _ rfl
  · intro d hd
    rw [hadd]
    split
    · rfl
    · simp [hd]
  · show ((removeListener _ this c).getSelf this).listeners = _
    rw [hrem, hadd]
    split
    · rfl
    · simp [List.filter_append]
  · show c ∉ ((removeListener _ this c).getSelf this).listeners
    rw [hrem]
    simp [List.mem_filter]
  · intro rt0 h0
    have hr0 := removeListener_listeners rt0 this c h0
    refine ⟨hr0, ?_⟩
    intro d hd
    show d ∈ ((removeListener rt0 this c).getSelf this).listeners ↔ _
    rw [hr0]
    simp [List.mem_filter, hd]

theorem listener_round_trip_witness :
    0 < listeningRuntime.objects.length ∧ (listeningRuntime.getSelf 0).listeners.Nodup ∧
    (listeningRuntime.getSelf 0).listeners = [7, 8, 9] ∧
    ((unsubscribe (addListener listeningRuntime 0 (some 5)).1 0 5).getSelf 0).listeners =
      [7, 8, 9].filter (fun d => d != 5) ∧
    ((addListener listeningRuntime 0 (some 8)).1.getSelf 0).listeners.count 8 = 1 :=
  ⟨by decide, by decide, rfl,
   (listener_round_trip listeningRuntime 0 5 (by decide) (by decide)).2.2.2.2.2.1,
   (listener_round_trip listeningRuntime 0 8 (by decide) (by decide)).2.1⟩

/-- C15: the `onmessage` handler never raises.  For a frame that `JSON.parse`
rejects it calls no listener and leaves the whole runtime unchanged; for a
parsed frame it calls the listeners, each once with `data.data`, when
`data.type` is `ESP_DATA`, and calls none and changes nothing otherwise. -/
theorem malformed_frames_discarded (env : Env) (rt : Runtime) (s : Socket)
    (eventData : String) :
    (onmessage env rt s eventData).2 = .ok () ∧
    (env.parse eventData = none → (onmessage env rt s eventData).1 = rt) ∧
    (∀ data, env.parse eventData = some data → messageType data = some "ESP_DATA" →
      (onmessage env rt s eventData).1 =
        { rt with calls := rt.calls ++
            (rt.getSelf s.self).listeners.map (fun c => (c, data.get "data")) }) ∧
    (∀ data, env.parse eventData = some data → messageType data ≠ some "ESP_DATA" →
      (onmessage env rt s eventData).1 = rt) := by
  refine ⟨?_, ?_, ?_, ?_⟩
  · unfold onmessage
    split
    · rfl
    · rfl
    · split <;> rfl
  · intro h
    simp [onmessage, h]
  · intro data hparse htype
    cases data <;>
      simp_all [onmessage, messageType, Json.get, notifyListeners, notifyListeners_fold]
  · intro data hparse htype
    cases data <;> simp_all [onmessage]

theorem malformed_frames_discarded_witness :
    sampleEnv.parse "not json" = none ∧
    (onmessage sampleEnv listeningRuntime
      { ws := WebSocket.create "ws://host/ws/frontend", self := 0, promise := 0,
        connectionTimeout := 1 } "not json").1 = listeningRuntime ∧
    (onmessage ConnetSocket.telemetryEnv listeningRuntime
      { ws := WebSocket.create "ws://host/ws/frontend", self := 0, promise := 0,
        connectionTimeout := 1 } "frame").1.calls =
      [(7, some (.obj [("temperature", .num 21)])), (8, some (.obj [("temperature", .num 21)])),
       (9, some (.obj [("temperature", .num 21)]))] :=
  ⟨rfl,
   (malformed_frames_discarded sampleEnv listeningRuntime
      { ws := WebSocket.create "ws://host/ws/frontend", self := 0, promise := 0,
        connectionTimeout := 1 } "not json").2.1 rfl,
   congrArg Runtime.calls
     ((malformed_frames_discarded ConnetSocket.telemetryEnv listeningRuntime
        { ws := WebSocket.create "ws://host/ws/frontend", self := 0, promise := 0,
          connectionTimeout := 1 } "frame").2.2.1 _ rfl rfl)⟩

end EspMonitor

namespace ConnetSocket
open JS

/-- C16: in every state whose retry handle is a handle the platform can have
returned (positive), as in every state the client can reach, the `onopen`
handler sets `reconnectAttempts` to 0 and `isConnecting` to false, removes the
timer of the stored handle from the pending timers, touching no other timer,
and sets `reconnectTimeout` to `null`. -/
theorem open_resets_retry_state (rt : Runtime)
    (hpos : ∀ h, rt.self.reconnectTimeout = some h → 1 ≤ h) :
    (onopen rt).self.reconnectAttempts = 0 ∧
    (onopen rt).self.isConnecting = false ∧
    (onopen rt).self.reconnectTimeout = none ∧
    (∀ h, rt.self.reconnectTimeout = some h →
      (onopen rt).timers = rt.timers.filter (fun t => t.id != h) ∧
      ∀ t, t ∈ (onopen rt).timers → t.id ≠ h) ∧
    (rt.self.reconnectTimeout = none → (onopen rt).timers = rt.timers) ∧
    (∀ (env : Env) (actions : List Action) (h : Nat),
      (run env Runtime.initial actions).self.reconnectTimeout = some h → 1 ≤ h) := by
  cases hr : rt.self.reconnectTimeout with
  | none =>
    refine ⟨?_, ?_, ?_, ?_, ?_, ?_⟩
    · simp [onopen, hr, handleTruthy]
    · simp [onopen, hr, handleTruthy]
    · simp [onopen, hr, handleTruthy]
    · intro h hh
      cases hh
    · intro _
      simp [onopen, hr, handleTruthy]
    · intro env actions h hh
      exact (settled_run env actions _ settled_initial).2.2.2 h hh
  | some k =>
    have hk : k ≠ 0 := by
      have := hpos k hr
      omega
    refine ⟨?_, ?_, ?_, ?_, ?_, ?_⟩
    · simp [onopen, hr, handleTruthy, hk, Runtime.clearTimeout]
    · simp [onopen, hr, handleTruthy, hk, Runtime.clearTimeout]
    · simp [onopen, hr, handleTruthy, hk, Runtime.clearTimeout]
    · intro h hh
      cases hh
      have htimers : (onopen rt).timers = rt.timers.filter (fun t => t.id != k) := by
        simp [onopen, hr, handleTruthy, hk, Runtime.clearTimeout]
      refine ⟨htimers, ?_⟩
      intro t ht
      rw [htimers] at ht
      simpa using (List.mem_filter.mp ht).2
    · intro hnone
      cases hnone
    · intro env actions h hh
      exact (settled_run env actions _ settled_initial).2.2.2 h hh

theorem open_resets_retry_state_witness :
    (∀ h, (handleClose Runtime.initial abnormalClose).self.reconnectTimeout = some h → 1 ≤ h) ∧
    (handleClose Runtime.initial abnormalClose).timers = [{ id := 1, delay := 1000 }] ∧
    (onopen (handleClose Runtime.initial abnormalClose)).self.reconnectTimeout = none ∧
    (onopen (handleClose Runtime.initial abnormalClose)).timers =
      [({ id := 1, delay := 1000 } : Timer)].filter (fun t => t.id != 1) :=
  ⟨fun h hh => by cases hh; decide, rfl,
   (open_resets_retry_state (handleClose Runtime.initial abnormalClose)
      (fun h hh => by cases hh; decide)).2.2.1,
   ((open_resets_retry_state (handleClose Runtime.initial abnormalClose)
      (fun h hh => by cases hh; decide)).2.2.2.1 1 rfl).1⟩

/-- C17: with `maxReconnectAttempts = 5`, the value the constructor sets and
every reachable state keeps, `handleClose` either schedules nothing or
schedules one timer, only while `reconnectAttempts < 5`, whose delay is one of
1000, 2000, 4000, 8000 and 16000 ms: a scheduled delay is at most 16000 ms and
never the 30000 ms ceiling. -/
theorem scheduled_delay_below_ceiling (rt : Runtime) (event : CloseEvent)
    (hmax : rt.self.maxReconnectAttempts = 5) :
    ((handleClose rt event).timers = rt.timers ∨
      (rt.self.reconnectAttempts < 5 ∧
       retryDelay rt.self.reconnectAttempts ∈ [1000, 2000, 4000, 8000, 16000] ∧
       retryDelay rt.self.reconnectAttempts ≤ 16000 ∧
       retryDelay rt.self.reconnectAttempts ≠ 30000 ∧
       (handleClose rt event).timers =
         rt.timers ++ [{ id := rt.nextTimer, delay := retryDelay rt.self.reconnectAttempts }])) ∧
    (5 ≤ rt.self.reconnectAttempts → (handleClose rt event).timers = rt.timers) ∧
    (∀ (env : Env) (actions : List Action),
      (run env Runtime.initial actions).self.maxReconnectAttempts = 5) := by
  refine ⟨?_, ?_, ?_⟩
  · by_cases hterm : event.code = 4001 ∨ event.code = 1000 ∨
        rt.self.maxReconnectAttempts ≤ rt.self.reconnectAttempts
    · left
      rw [handleClose_not_scheduled rt event hterm]
    · right
      have h4001 : event.code ≠ 4001 := fun h => hterm (Or.inl h)
      have h1000 : event.code ≠ 1000 := fun h => hterm (Or.inr (Or.inl h))
      have hlt : rt.self.reconnectAttempts < rt.self.maxReconnectAttempts :=
        Nat.lt_of_not_le (fun h => hterm (Or.inr (Or.inr h)))
      have hlt5 : rt.self.reconnectAttempts < 5 := by rw [hmax] at hlt; exact hlt
      have hdelay : ∀ n, n < 5 → retryDelay n ∈ [1000, 2000, 4000, 8000, 16000] ∧
          retryDelay n ≤ 16000 ∧ retryDelay n ≠ 30000 := by
        intro n hn
        interval_cases n <;> simp [retryDelay]
      obtain ⟨d1, d2, d3⟩ := hdelay _ hlt5
      refine ⟨hlt5, d1, d2, d3, ?_⟩
      rw [handleClose_scheduled rt event h4001 h1000 hlt]
  · intro hge
    rw [handleClose_not_scheduled rt event (Or.inr (Or.inr (by rw [hmax]; exact hge)))]
  · intro env actions
    exact (settled_run env actions _ settled_initial).1

theorem scheduled_delay_below_ceiling_witness :
    Runtime.initial.self.maxReconnectAttempts = 5 ∧
    (5 ≤ exhaustedRuntime.self.reconnectAttempts) ∧
    (handleClose exhaustedRuntime abnormalClose).timers = exhaustedRuntime.timers ∧
    (run sampleEnv Runtime.initial [.connect (some "abc"), .socketClosed 0 abnormalClose]
      ).self.maxReconnectAttempts = 5 :=
  ⟨rfl, by decide,
   (scheduled_delay_below_ceiling exhaustedRuntime abnormalClose rfl).2.1 (by decide),
   (scheduled_delay_below_ceiling Runtime.initial abnormalClose rfl).2.2 sampleEnv _⟩

end ConnetSocket
